import Mathlib

/-!
A shallow embedding of the conversion layer in src/src/main/conversions.c of the
aerospike-client-python repository.  Python objects, the Aerospike value model
(as_val and friends), and the conversion functions between them are modelled as
Lean data types and executable functions.  External collaborators (the pluggable
serializer, the geo codec) are passed in as function parameters; CPython byte
strings are modelled as lists of byte values, and C string semantics (a string
ends at the first NUL byte, as strlen and PyString_FromString see it) are made
explicit through the helper cstr.
-/

set_option maxHeartbeats 1000000

/-- Aerospike status codes used by the error paths of conversions.c. -/
inductive Code where
  | param
  | client
  | binName
  deriving DecidableEq, Repr

/-- The as_error record: a status code together with the message written by
as_error_update.  Source location and the in_doubt flag are not tracked. -/
structure Err where
  code : Code
  msg : String
  deriving DecidableEq, Repr

/-- The sub-type byte carried by as_bytes values (AS_BYTES_BLOB for raw wraps,
serializer-chosen tags for serialized payloads). -/
inductive BytesType where
  | blob
  | python
  | java
  deriving DecidableEq, Repr

/-- The Python object model as seen by conversions.c.  Byte strings (PyString,
PyBytes, PyByteArray) and the UTF-8 encoding of a PyUnicode are lists of byte
values.  Doubles are carried as their 64-bit pattern, because conversions.c
only ever passes them through unchanged.  pyGeo stands for an
aerospike.Geospatial instance (its geo_data attribute is the wrapped object);
pyNull, pyWildcard and pyInfinity stand for the aerospike.null and CDT
wildcard and infinity singleton classes; pyCtxWrapper stands for an
aerospike_helpers ctx object exposing id and value attributes; pyOther stands
for any other Python object, which conversions.c hands to the fallback
serializer. -/
inductive PyObj where
  | pyBool (b : Bool)
  | pyInt (n : Int)
  | pyFloat (bits : Nat)
  | pyStr (s : List Nat)
  | pyUni (s : List Nat)
  | pyBytes (b : List Nat)
  | pyByteArray (b : List Nat)
  | pyList (xs : List PyObj)
  | pyDict (es : List (PyObj × PyObj))
  | pyTuple (xs : List PyObj)
  | pyNone
  | pyNull
  | pyGeo (d : PyObj)
  | pyWildcard
  | pyInfinity
  | pyCtxWrapper (i : PyObj) (v : PyObj)
  | pyOther
  deriving Repr

/-- The as_val tagged union (wire value model).  Map values are modelled as the
ordered sequence of key and value pairs produced by successive as_map_set
calls.  Records never occur nested inside values on the paths modelled here,
so there is no record variant. -/
inductive AsVal where
  | integer (n : Int)
  | double (bits : Nat)
  | string (s : List Nat)
  | bytes (t : BytesType) (b : List Nat)
  | list (xs : List AsVal)
  | map (ps : List (AsVal × AsVal))
  | nil
  | geojson (s : List Nat)
  | wildcard
  | infinity
  deriving Repr

mutual
/-- Structural equality test on PyObj (models the equality used by
PyDict_SetItem for dictionary keys). -/
def pyBeq : PyObj → PyObj → Bool
  | .pyBool a1, .pyBool a2 => a1 == a2
  | .pyInt a1, .pyInt a2 => a1 == a2
  | .pyFloat a1, .pyFloat a2 => a1 == a2
  | .pyStr a1, .pyStr a2 => a1 == a2
  | .pyUni a1, .pyUni a2 => a1 == a2
  | .pyBytes a1, .pyBytes a2 => a1 == a2
  | .pyByteArray a1, .pyByteArray a2 => a1 == a2
  | .pyList a1, .pyList a2 => pyBeqList a1 a2
  | .pyDict a1, .pyDict a2 => pyBeqPairs a1 a2
  | .pyTuple a1, .pyTuple a2 => pyBeqList a1 a2
  | .pyNone, .pyNone => true
  | .pyNull, .pyNull => true
  | .pyGeo a1, .pyGeo a2 => pyBeq a1 a2
  | .pyWildcard, .pyWildcard => true
  | .pyInfinity, .pyInfinity => true
  | .pyCtxWrapper a1 b1, .pyCtxWrapper a2 b2 => pyBeq a1 a2 && pyBeq b1 b2
  | .pyOther, .pyOther => true
  | _, _ => false

/-- Elementwise pyBeq on lists. -/
def pyBeqList : List PyObj → List PyObj → Bool
  | [], [] => true
  | x :: xs, y :: ys => pyBeq x y && pyBeqList xs ys
  | _, _ => false

/-- Elementwise pyBeq on pair lists. -/
def pyBeqPairs : List (PyObj × PyObj) → List (PyObj × PyObj) → Bool
  | [], [] => true
  | (k, v) :: xs, (k2, v2) :: ys => pyBeq k k2 && pyBeq v v2 && pyBeqPairs xs ys
  | _, _ => false
end

mutual
/-- pyBeq decides equality of PyObj. -/
theorem pyBeq_iff : ∀ a b, pyBeq a b = true ↔ a = b
  | .pyBool a1, .pyBool a2 => by simp [pyBeq]
  | .pyBool _, .pyInt _ => by simp [pyBeq]
  | .pyBool _, .pyFloat _ => by simp [pyBeq]
  | .pyBool _, .pyStr _ => by simp [pyBeq]
  | .pyBool _, .pyUni _ => by simp [pyBeq]
  | .pyBool _, .pyBytes _ => by simp [pyBeq]
  | .pyBool _, .pyByteArray _ => by simp [pyBeq]
  | .pyBool _, .pyList _ => by simp [pyBeq]
  | .pyBool _, .pyDict _ => by simp [pyBeq]
  | .pyBool _, .pyTuple _ => by simp [pyBeq]
  | .pyBool _, .pyNone => by simp [pyBeq]
  | .pyBool _, .pyNull => by simp [pyBeq]
  | .pyBool _, .pyGeo _ => by simp [pyBeq]
  | .pyBool _, .pyWildcard => by simp [pyBeq]
  | .pyBool _, .pyInfinity => by simp [pyBeq]
  | .pyBool _, .pyCtxWrapper _ _ => by simp [pyBeq]
  | .pyBool _, .pyOther => by simp [pyBeq]
  | .pyInt _, .pyBool _ => by simp [pyBeq]
  | .pyInt a1, .pyInt a2 => by simp [pyBeq]
  | .pyInt _, .pyFloat _ => by simp [pyBeq]
  | .pyInt _, .pyStr _ => by simp [pyBeq]
  | .pyInt _, .pyUni _ => by simp [pyBeq]
  | .pyInt _, .pyBytes _ => by simp [pyBeq]
  | .pyInt _, .pyByteArray _ => by simp [pyBeq]
  | .pyInt _, .pyList _ => by simp [pyBeq]
  | .pyInt _, .pyDict _ => by simp [pyBeq]
  | .pyInt _, .pyTuple _ => by simp [pyBeq]
  | .pyInt _, .pyNone => by simp [pyBeq]
  | .pyInt _, .pyNull => by simp [pyBeq]
  | .pyInt _, .pyGeo _ => by simp [pyBeq]
  | .pyInt _, .pyWildcard => by simp [pyBeq]
  | .pyInt _, .pyInfinity => by simp [pyBeq]
  | .pyInt _, .pyCtxWrapper _ _ => by simp [pyBeq]
  | .pyInt _, .pyOther => by simp [pyBeq]
  | .pyFloat _, .pyBool _ => by simp [pyBeq]
  | .pyFloat _, .pyInt _ => by simp [pyBeq]
  | .pyFloat a1, .pyFloat a2 => by simp [pyBeq]
  | .pyFloat _, .pyStr _ => by simp [pyBeq]
  | .pyFloat _, .pyUni _ => by simp [pyBeq]
  | .pyFloat _, .pyBytes _ => by simp [pyBeq]
  | .pyFloat _, .pyByteArray _ => by simp [pyBeq]
  | .pyFloat _, .pyList _ => by simp [pyBeq]
  | .pyFloat _, .pyDict _ => by simp [pyBeq]
  | .pyFloat _, .pyTuple _ => by simp [pyBeq]
  | .pyFloat _, .pyNone => by simp [pyBeq]
  | .pyFloat _, .pyNull => by simp [pyBeq]
  | .pyFloat _, .pyGeo _ => by simp [pyBeq]
  | .pyFloat _, .pyWildcard => by simp [pyBeq]
  | .pyFloat _, .pyInfinity => by simp [pyBeq]
  | .pyFloat _, .pyCtxWrapper _ _ => by simp [pyBeq]
  | .pyFloat _, .pyOther => by simp [pyBeq]
  | .pyStr _, .pyBool _ => by simp [pyBeq]
  | .pyStr _, .pyInt _ => by simp [pyBeq]
  | .pyStr _, .pyFloat _ => by simp [pyBeq]
  | .pyStr a1, .pyStr a2 => by simp [pyBeq]
  | .pyStr _, .pyUni _ => by simp [pyBeq]
  | .pyStr _, .pyBytes _ => by simp [pyBeq]
  | .pyStr _, .pyByteArray _ => by simp [pyBeq]
  | .pyStr _, .pyList _ => by simp [pyBeq]
  | .pyStr _, .pyDict _ => by simp [pyBeq]
  | .pyStr _, .pyTuple _ => by simp [pyBeq]
  | .pyStr _, .pyNone => by simp [pyBeq]
  | .pyStr _, .pyNull => by simp [pyBeq]
  | .pyStr _, .pyGeo _ => by simp [pyBeq]
  | .pyStr _, .pyWildcard => by simp [pyBeq]
  | .pyStr _, .pyInfinity => by simp [pyBeq]
  | .pyStr _, .pyCtxWrapper _ _ => by simp [pyBeq]
  | .pyStr _, .pyOther => by simp [pyBeq]
  | .pyUni _, .pyBool _ => by simp [pyBeq]
  | .pyUni _, .pyInt _ => by simp [pyBeq]
  | .pyUni _, .pyFloat _ => by simp [pyBeq]
  | .pyUni _, .pyStr _ => by simp [pyBeq]
  | .pyUni a1, .pyUni a2 => by simp [pyBeq]
  | .pyUni _, .pyBytes _ => by simp [pyBeq]
  | .pyUni _, .pyByteArray _ => by simp [pyBeq]
  | .pyUni _, .pyList _ => by simp [pyBeq]
  | .pyUni _, .pyDict _ => by simp [pyBeq]
  | .pyUni _, .pyTuple _ => by simp [pyBeq]
  | .pyUni _, .pyNone => by simp [pyBeq]
  | .pyUni _, .pyNull => by simp [pyBeq]
  | .pyUni _, .pyGeo _ => by simp [pyBeq]
  | .pyUni _, .pyWildcard => by simp [pyBeq]
  | .pyUni _, .pyInfinity => by simp [pyBeq]
  | .pyUni _, .pyCtxWrapper _ _ => by simp [pyBeq]
  | .pyUni _, .pyOther => by simp [pyBeq]
  | .pyBytes _, .pyBool _ => by simp [pyBeq]
  | .pyBytes _, .pyInt _ => by simp [pyBeq]
  | .pyBytes _, .pyFloat _ => by simp [pyBeq]
  | .pyBytes _, .pyStr _ => by simp [pyBeq]
  | .pyBytes _, .pyUni _ => by simp [pyBeq]
  | .pyBytes a1, .pyBytes a2 => by simp [pyBeq]
  | .pyBytes _, .pyByteArray _ => by simp [pyBeq]
  | .pyBytes _, .pyList _ => by simp [pyBeq]
  | .pyBytes _, .pyDict _ => by simp [pyBeq]
  | .pyBytes _, .pyTuple _ => by simp [pyBeq]
  | .pyBytes _, .pyNone => by simp [pyBeq]
  | .pyBytes _, .pyNull => by simp [pyBeq]
  | .pyBytes _, .pyGeo _ => by simp [pyBeq]
  | .pyBytes _, .pyWildcard => by simp [pyBeq]
  | .pyBytes _, .pyInfinity => by simp [pyBeq]
  | .pyBytes _, .pyCtxWrapper _ _ => by simp [pyBeq]
  | .pyBytes _, .pyOther => by simp [pyBeq]
  | .pyByteArray _, .pyBool _ => by simp [pyBeq]
  | .pyByteArray _, .pyInt _ => by simp [pyBeq]
  | .pyByteArray _, .pyFloat _ => by simp [pyBeq]
  | .pyByteArray _, .pyStr _ => by simp [pyBeq]
  | .pyByteArray _, .pyUni _ => by simp [pyBeq]
  | .pyByteArray _, .pyBytes _ => by simp [pyBeq]
  | .pyByteArray a1, .pyByteArray a2 => by simp [pyBeq]
  | .pyByteArray _, .pyList _ => by simp [pyBeq]
  | .pyByteArray _, .pyDict _ => by simp [pyBeq]
  | .pyByteArray _, .pyTuple _ => by simp [pyBeq]
  | .pyByteArray _, .pyNone => by simp [pyBeq]
  | .pyByteArray _, .pyNull => by simp [pyBeq]
  | .pyByteArray _, .pyGeo _ => by simp [pyBeq]
  | .pyByteArray _, .pyWildcard => by simp [pyBeq]
  | .pyByteArray _, .pyInfinity => by simp [pyBeq]
  | .pyByteArray _, .pyCtxWrapper _ _ => by simp [pyBeq]
  | .pyByteArray _, .pyOther => by simp [pyBeq]
  | .pyList _, .pyBool _ => by simp [pyBeq]
  | .pyList _, .pyInt _ => by simp [pyBeq]
  | .pyList _, .pyFloat _ => by simp [pyBeq]
  | .pyList _, .pyStr _ => by simp [pyBeq]
  | .pyList _, .pyUni _ => by simp [pyBeq]
  | .pyList _, .pyBytes _ => by simp [pyBeq]
  | .pyList _, .pyByteArray _ => by simp [pyBeq]
  | .pyList a1, .pyList a2 => by
      simp only [pyBeq, PyObj.pyList.injEq]
      exact pyBeqList_iff a1 a2
  | .pyList _, .pyDict _ => by simp [pyBeq]
  | .pyList _, .pyTuple _ => by simp [pyBeq]
  | .pyList _, .pyNone => by simp [pyBeq]
  | .pyList _, .pyNull => by simp [pyBeq]
  | .pyList _, .pyGeo _ => by simp [pyBeq]
  | .pyList _, .pyWildcard => by simp [pyBeq]
  | .pyList _, .pyInfinity => by simp [pyBeq]
  | .pyList _, .pyCtxWrapper _ _ => by simp [pyBeq]
  | .pyList _, .pyOther => by simp [pyBeq]
  | .pyDict _, .pyBool _ => by simp [pyBeq]
  | .pyDict _, .pyInt _ => by simp [pyBeq]
  | .pyDict _, .pyFloat _ => by simp [pyBeq]
  | .pyDict _, .pyStr _ => by simp [pyBeq]
  | .pyDict _, .pyUni _ => by simp [pyBeq]
  | .pyDict _, .pyBytes _ => by simp [pyBeq]
  | .pyDict _, .pyByteArray _ => by simp [pyBeq]
  | .pyDict _, .pyList _ => by simp [pyBeq]
  | .pyDict a1, .pyDict a2 => by
      simp only [pyBeq, PyObj.pyDict.injEq]
      exact pyBeqPairs_iff a1 a2
  | .pyDict _, .pyTuple _ => by simp [pyBeq]
  | .pyDict _, .pyNone => by simp [pyBeq]
  | .pyDict _, .pyNull => by simp [pyBeq]
  | .pyDict _, .pyGeo _ => by simp [pyBeq]
  | .pyDict _, .pyWildcard => by simp [pyBeq]
  | .pyDict _, .pyInfinity => by simp [pyBeq]
  | .pyDict _, .pyCtxWrapper _ _ => by simp [pyBeq]
  | .pyDict _, .pyOther => by simp [pyBeq]
  | .pyTuple _, .pyBool _ => by simp [pyBeq]
  | .pyTuple _, .pyInt _ => by simp [pyBeq]
  | .pyTuple _, .pyFloat _ => by simp [pyBeq]
  | .pyTuple _, .pyStr _ => by simp [pyBeq]
  | .pyTuple _, .pyUni _ => by simp [pyBeq]
  | .pyTuple _, .pyBytes _ => by simp [pyBeq]
  | .pyTuple _, .pyByteArray _ => by simp [pyBeq]
  | .pyTuple _, .pyList _ => by simp [pyBeq]
  | .pyTuple _, .pyDict _ => by simp [pyBeq]
  | .pyTuple a1, .pyTuple a2 => by
      simp only [pyBeq, PyObj.pyTuple.injEq]
      exact pyBeqList_iff a1 a2
  | .pyTuple _, .pyNone => by simp [pyBeq]
  | .pyTuple _, .pyNull => by simp [pyBeq]
  | .pyTuple _, .pyGeo _ => by simp [pyBeq]
  | .pyTuple _, .pyWildcard => by simp [pyBeq]
  | .pyTuple _, .pyInfinity => by simp [pyBeq]
  | .pyTuple _, .pyCtxWrapper _ _ => by simp [pyBeq]
  | .pyTuple _, .pyOther => by simp [pyBeq]
  | .pyNone, .pyBool _ => by simp [pyBeq]
  | .pyNone, .pyInt _ => by simp [pyBeq]
  | .pyNone, .pyFloat _ => by simp [pyBeq]
  | .pyNone, .pyStr _ => by simp [pyBeq]
  | .pyNone, .pyUni _ => by simp [pyBeq]
  | .pyNone, .pyBytes _ => by simp [pyBeq]
  | .pyNone, .pyByteArray _ => by simp [pyBeq]
  | .pyNone, .pyList _ => by simp [pyBeq]
  | .pyNone, .pyDict _ => by simp [pyBeq]
  | .pyNone, .pyTuple _ => by simp [pyBeq]
  | .pyNone, .pyNone => by simp [pyBeq]
  | .pyNone, .pyNull => by simp [pyBeq]
  | .pyNone, .pyGeo _ => by simp [pyBeq]
  | .pyNone, .pyWildcard => by simp [pyBeq]
  | .pyNone, .pyInfinity => by simp [pyBeq]
  | .pyNone, .pyCtxWrapper _ _ => by simp [pyBeq]
  | .pyNone, .pyOther => by simp [pyBeq]
  | .pyNull, .pyBool _ => by simp [pyBeq]
  | .pyNull, .pyInt _ => by simp [pyBeq]
  | .pyNull, .pyFloat _ => by simp [pyBeq]
  | .pyNull, .pyStr _ => by simp [pyBeq]
  | .pyNull, .pyUni _ => by simp [pyBeq]
  | .pyNull, .pyBytes _ => by simp [pyBeq]
  | .pyNull, .pyByteArray _ => by simp [pyBeq]
  | .pyNull, .pyList _ => by simp [pyBeq]
  | .pyNull, .pyDict _ => by simp [pyBeq]
  | .pyNull, .pyTuple _ => by simp [pyBeq]
  | .pyNull, .pyNone => by simp [pyBeq]
  | .pyNull, .pyNull => by simp [pyBeq]
  | .pyNull, .pyGeo _ => by simp [pyBeq]
  | .pyNull, .pyWildcard => by simp [pyBeq]
  | .pyNull, .pyInfinity => by simp [pyBeq]
  | .pyNull, .pyCtxWrapper _ _ => by simp [pyBeq]
  | .pyNull, .pyOther => by simp [pyBeq]
  | .pyGeo _, .pyBool _ => by simp [pyBeq]
  | .pyGeo _, .pyInt _ => by simp [pyBeq]
  | .pyGeo _, .pyFloat _ => by simp [pyBeq]
  | .pyGeo _, .pyStr _ => by simp [pyBeq]
  | .pyGeo _, .pyUni _ => by simp [pyBeq]
  | .pyGeo _, .pyBytes _ => by simp [pyBeq]
  | .pyGeo _, .pyByteArray _ => by simp [pyBeq]
  | .pyGeo _, .pyList _ => by simp [pyBeq]
  | .pyGeo _, .pyDict _ => by simp [pyBeq]
  | .pyGeo _, .pyTuple _ => by simp [pyBeq]
  | .pyGeo _, .pyNone => by simp [pyBeq]
  | .pyGeo _, .pyNull => by simp [pyBeq]
  | .pyGeo a1, .pyGeo a2 => by
      simp only [pyBeq, PyObj.pyGeo.injEq]
      exact pyBeq_iff a1 a2
  | .pyGeo _, .pyWildcard => by simp [pyBeq]
  | .pyGeo _, .pyInfinity => by simp [pyBeq]
  | .pyGeo _, .pyCtxWrapper _ _ => by simp [pyBeq]
  | .pyGeo _, .pyOther => by simp [pyBeq]
  | .pyWildcard, .pyBool _ => by simp [pyBeq]
  | .pyWildcard, .pyInt _ => by simp [pyBeq]
  | .pyWildcard, .pyFloat _ => by simp [pyBeq]
  | .pyWildcard, .pyStr _ => by simp [pyBeq]
  | .pyWildcard, .pyUni _ => by simp [pyBeq]
  | .pyWildcard, .pyBytes _ => by simp [pyBeq]
  | .pyWildcard, .pyByteArray _ => by simp [pyBeq]
  | .pyWildcard, .pyList _ => by simp [pyBeq]
  | .pyWildcard, .pyDict _ => by simp [pyBeq]
  | .pyWildcard, .pyTuple _ => by simp [pyBeq]
  | .pyWildcard, .pyNone => by simp [pyBeq]
  | .pyWildcard, .pyNull => by simp [pyBeq]
  | .pyWildcard, .pyGeo _ => by simp [pyBeq]
  | .pyWildcard, .pyWildcard => by simp [pyBeq]
  | .pyWildcard, .pyInfinity => by simp [pyBeq]
  | .pyWildcard, .pyCtxWrapper _ _ => by simp [pyBeq]
  | .pyWildcard, .pyOther => by simp [pyBeq]
  | .pyInfinity, .pyBool _ => by simp [pyBeq]
  | .pyInfinity, .pyInt _ => by simp [pyBeq]
  | .pyInfinity, .pyFloat _ => by simp [pyBeq]
  | .pyInfinity, .pyStr _ => by simp [pyBeq]
  | .pyInfinity, .pyUni _ => by simp [pyBeq]
  | .pyInfinity, .pyBytes _ => by simp [pyBeq]
  | .pyInfinity, .pyByteArray _ => by simp [pyBeq]
  | .pyInfinity, .pyList _ => by simp [pyBeq]
  | .pyInfinity, .pyDict _ => by simp [pyBeq]
  | .pyInfinity, .pyTuple _ => by simp [pyBeq]
  | .pyInfinity, .pyNone => by simp [pyBeq]
  | .pyInfinity, .pyNull => by simp [pyBeq]
  | .pyInfinity, .pyGeo _ => by simp [pyBeq]
  | .pyInfinity, .pyWildcard => by simp [pyBeq]
  | .pyInfinity, .pyInfinity => by simp [pyBeq]
  | .pyInfinity, .pyCtxWrapper _ _ => by simp [pyBeq]
  | .pyInfinity, .pyOther => by simp [pyBeq]
  | .pyCtxWrapper _ _, .pyBool _ => by simp [pyBeq]
  | .pyCtxWrapper _ _, .pyInt _ => by simp [pyBeq]
  | .pyCtxWrapper _ _, .pyFloat _ => by simp [pyBeq]
  | .pyCtxWrapper _ _, .pyStr _ => by simp [pyBeq]
  | .pyCtxWrapper _ _, .pyUni _ => by simp [pyBeq]
  | .pyCtxWrapper _ _, .pyBytes _ => by simp [pyBeq]
  | .pyCtxWrapper _ _, .pyByteArray _ => by simp [pyBeq]
  | .pyCtxWrapper _ _, .pyList _ => by simp [pyBeq]
  | .pyCtxWrapper _ _, .pyDict _ => by simp [pyBeq]
  | .pyCtxWrapper _ _, .pyTuple _ => by simp [pyBeq]
  | .pyCtxWrapper _ _, .pyNone => by simp [pyBeq]
  | .pyCtxWrapper _ _, .pyNull => by simp [pyBeq]
  | .pyCtxWrapper _ _, .pyGeo _ => by simp [pyBeq]
  | .pyCtxWrapper _ _, .pyWildcard => by simp [pyBeq]
  | .pyCtxWrapper _ _, .pyInfinity => by simp [pyBeq]
  | .pyCtxWrapper a1 b1, .pyCtxWrapper a2 b2 => by
      simp only [pyBeq, Bool.and_eq_true, PyObj.pyCtxWrapper.injEq]
      exact and_congr (pyBeq_iff a1 a2) (pyBeq_iff b1 b2)
  | .pyCtxWrapper _ _, .pyOther => by simp [pyBeq]
  | .pyOther, .pyBool _ => by simp [pyBeq]
  | .pyOther, .pyInt _ => by simp [pyBeq]
  | .pyOther, .pyFloat _ => by simp [pyBeq]
  | .pyOther, .pyStr _ => by simp [pyBeq]
  | .pyOther, .pyUni _ => by simp [pyBeq]
  | .pyOther, .pyBytes _ => by simp [pyBeq]
  | .pyOther, .pyByteArray _ => by simp [pyBeq]
  | .pyOther, .pyList _ => by simp [pyBeq]
  | .pyOther, .pyDict _ => by simp [pyBeq]
  | .pyOther, .pyTuple _ => by simp [pyBeq]
  | .pyOther, .pyNone => by simp [pyBeq]
  | .pyOther, .pyNull => by simp [pyBeq]
  | .pyOther, .pyGeo _ => by simp [pyBeq]
  | .pyOther, .pyWildcard => by simp [pyBeq]
  | .pyOther, .pyInfinity => by simp [pyBeq]
  | .pyOther, .pyCtxWrapper _ _ => by simp [pyBeq]
  | .pyOther, .pyOther => by simp [pyBeq]

/-- pyBeqList decides equality of PyObj lists. -/
theorem pyBeqList_iff : ∀ xs ys, pyBeqList xs ys = true ↔ xs = ys
  | [], [] => by simp [pyBeqList]
  | x :: xs, y :: ys => by
      simp only [pyBeqList, Bool.and_eq_true, List.cons.injEq]
      exact and_congr (pyBeq_iff x y) (pyBeqList_iff xs ys)
  | [], _ :: _ => by simp [pyBeqList]
  | _ :: _, [] => by simp [pyBeqList]

/-- pyBeqPairs decides equality of PyObj pair lists. -/
theorem pyBeqPairs_iff : ∀ xs ys, pyBeqPairs xs ys = true ↔ xs = ys
  | [], [] => by simp [pyBeqPairs]
  | (k, v) :: xs, (k2, v2) :: ys => by
      simp only [pyBeqPairs, Bool.and_eq_true, List.cons.injEq, Prod.mk.injEq]
      exact and_congr (and_congr (pyBeq_iff k k2) (pyBeq_iff v v2)) (pyBeqPairs_iff xs ys)
  | [], _ :: _ => by simp [pyBeqPairs]
  | _ :: _, [] => by simp [pyBeqPairs]
end

instance : DecidableEq PyObj := fun a b => decidable_of_iff _ (pyBeq_iff a b)

mutual
/-- Structural equality test on AsVal (models the key comparison done by
as_map_set inside an as_hashmap). -/
def aBeq : AsVal → AsVal → Bool
  | .integer a1, .integer a2 => a1 == a2
  | .double a1, .double a2 => a1 == a2
  | .string a1, .string a2 => a1 == a2
  | .bytes a1 b1, .bytes a2 b2 => a1 == a2 && b1 == b2
  | .list a1, .list a2 => aBeqList a1 a2
  | .map a1, .map a2 => aBeqPairs a1 a2
  | .nil, .nil => true
  | .geojson a1, .geojson a2 => a1 == a2
  | .wildcard, .wildcard => true
  | .infinity, .infinity => true
  | _, _ => false

/-- Elementwise aBeq on lists. -/
def aBeqList : List AsVal → List AsVal → Bool
  | [], [] => true
  | x :: xs, y :: ys => aBeq x y && aBeqList xs ys
  | _, _ => false

/-- Elementwise aBeq on pair lists. -/
def aBeqPairs : List (AsVal × AsVal) → List (AsVal × AsVal) → Bool
  | [], [] => true
  | (k, v) :: xs, (k2, v2) :: ys => aBeq k k2 && aBeq v v2 && aBeqPairs xs ys
  | _, _ => false
end

mutual
/-- aBeq decides equality of AsVal. -/
theorem aBeq_iff : ∀ a b, aBeq a b = true ↔ a = b
  | .integer a1, .integer a2 => by simp [aBeq]
  | .integer _, .double _ => by simp [aBeq]
  | .integer _, .string _ => by simp [aBeq]
  | .integer _, .bytes _ _ => by simp [aBeq]
  | .integer _, .list _ => by simp [aBeq]
  | .integer _, .map _ => by simp [aBeq]
  | .integer _, .nil => by simp [aBeq]
  | .integer _, .geojson _ => by simp [aBeq]
  | .integer _, .wildcard => by simp [aBeq]
  | .integer _, .infinity => by simp [aBeq]
  | .double _, .integer _ => by simp [aBeq]
  | .double a1, .double a2 => by simp [aBeq]
  | .double _, .string _ => by simp [aBeq]
  | .double _, .bytes _ _ => by simp [aBeq]
  | .double _, .list _ => by simp [aBeq]
  | .double _, .map _ => by simp [aBeq]
  | .double _, .nil => by simp [aBeq]
  | .double _, .geojson _ => by simp [aBeq]
  | .double _, .wildcard => by simp [aBeq]
  | .double _, .infinity => by simp [aBeq]
  | .string _, .integer _ => by simp [aBeq]
  | .string _, .double _ => by simp [aBeq]
  | .string a1, .string a2 => by simp [aBeq]
  | .string _, .bytes _ _ => by simp [aBeq]
  | .string _, .list _ => by simp [aBeq]
  | .string _, .map _ => by simp [aBeq]
  | .string _, .nil => by simp [aBeq]
  | .string _, .geojson _ => by simp [aBeq]
  | .string _, .wildcard => by simp [aBeq]
  | .string _, .infinity => by simp [aBeq]
  | .bytes _ _, .integer _ => by simp [aBeq]
  | .bytes _ _, .double _ => by simp [aBeq]
  | .bytes _ _, .string _ => by simp [aBeq]
  | .bytes a1 b1, .bytes a2 b2 => by simp [aBeq]
  | .bytes _ _, .list _ => by simp [aBeq]
  | .bytes _ _, .map _ => by simp [aBeq]
  | .bytes _ _, .nil => by simp [aBeq]
  | .bytes _ _, .geojson _ => by simp [aBeq]
  | .bytes _ _, .wildcard => by simp [aBeq]
  | .bytes _ _, .infinity => by simp [aBeq]
  | .list _, .integer _ => by simp [aBeq]
  | .list _, .double _ => by simp [aBeq]
  | .list _, .string _ => by simp [aBeq]
  | .list _, .bytes _ _ => by simp [aBeq]
  | .list a1, .list a2 => by
      simp only [aBeq, AsVal.list.injEq]
      exact aBeqList_iff a1 a2
  | .list _, .map _ => by simp [aBeq]
  | .list _, .nil => by simp [aBeq]
  | .list _, .geojson _ => by simp [aBeq]
  | .list _, .wildcard => by simp [aBeq]
  | .list _, .infinity => by simp [aBeq]
  | .map _, .integer _ => by simp [aBeq]
  | .map _, .double _ => by simp [aBeq]
  | .map _, .string _ => by simp [aBeq]
  | .map _, .bytes _ _ => by simp [aBeq]
  | .map _, .list _ => by simp [aBeq]
  | .map a1, .map a2 => by
      simp only [aBeq, AsVal.map.injEq]
      exact aBeqPairs_iff a1 a2
  | .map _, .nil => by simp [aBeq]
  | .map _, .geojson _ => by simp [aBeq]
  | .map _, .wildcard => by simp [aBeq]
  | .map _, .infinity => by simp [aBeq]
  | .nil, .integer _ => by simp [aBeq]
  | .nil, .double _ => by simp [aBeq]
  | .nil, .string _ => by simp [aBeq]
  | .nil, .bytes _ _ => by simp [aBeq]
  | .nil, .list _ => by simp [aBeq]
  | .nil, .map _ => by simp [aBeq]
  | .nil, .nil => by simp [aBeq]
  | .nil, .geojson _ => by simp [aBeq]
  | .nil, .wildcard => by simp [aBeq]
  | .nil, .infinity => by simp [aBeq]
  | .geojson _, .integer _ => by simp [aBeq]
  | .geojson _, .double _ => by simp [aBeq]
  | .geojson _, .string _ => by simp [aBeq]
  | .geojson _, .bytes _ _ => by simp [aBeq]
  | .geojson _, .list _ => by simp [aBeq]
  | .geojson _, .map _ => by simp [aBeq]
  | .geojson _, .nil => by simp [aBeq]
  | .geojson a1, .geojson a2 => by simp [aBeq]
  | .geojson _, .wildcard => by simp [aBeq]
  | .geojson _, .infinity => by simp [aBeq]
  | .wildcard, .integer _ => by simp [aBeq]
  | .wildcard, .double _ => by simp [aBeq]
  | .wildcard, .string _ => by simp [aBeq]
  | .wildcard, .bytes _ _ => by simp [aBeq]
  | .wildcard, .list _ => by simp [aBeq]
  | .wildcard, .map _ => by simp [aBeq]
  | .wildcard, .nil => by simp [aBeq]
  | .wildcard, .geojson _ => by simp [aBeq]
  | .wildcard, .wildcard => by simp [aBeq]
  | .wildcard, .infinity => by simp [aBeq]
  | .infinity, .integer _ => by simp [aBeq]
  | .infinity, .double _ => by simp [aBeq]
  | .infinity, .string _ => by simp [aBeq]
  | .infinity, .bytes _ _ => by simp [aBeq]
  | .infinity, .list _ => by simp [aBeq]
  | .infinity, .map _ => by simp [aBeq]
  | .infinity, .nil => by simp [aBeq]
  | .infinity, .geojson _ => by simp [aBeq]
  | .infinity, .wildcard => by simp [aBeq]
  | .infinity, .infinity => by simp [aBeq]

/-- aBeqList decides equality of AsVal lists. -/
theorem aBeqList_iff : ∀ xs ys, aBeqList xs ys = true ↔ xs = ys
  | [], [] => by simp [aBeqList]
  | x :: xs, y :: ys => by
      simp only [aBeqList, Bool.and_eq_true, List.cons.injEq]
      exact and_congr (aBeq_iff x y) (aBeqList_iff xs ys)
  | [], _ :: _ => by simp [aBeqList]
  | _ :: _, [] => by simp [aBeqList]

/-- aBeqPairs decides equality of AsVal pair lists. -/
theorem aBeqPairs_iff : ∀ xs ys, aBeqPairs xs ys = true ↔ xs = ys
  | [], [] => by simp [aBeqPairs]
  | (k, v) :: xs, (k2, v2) :: ys => by
      simp only [aBeqPairs, Bool.and_eq_true, List.cons.injEq, Prod.mk.injEq]
      exact and_congr (and_congr (aBeq_iff k k2) (aBeq_iff v v2)) (aBeqPairs_iff xs ys)
  | [], _ :: _ => by simp [aBeqPairs]
  | _ :: _, [] => by simp [aBeqPairs]
end

instance : DecidableEq AsVal := fun a b => decidable_of_iff _ (aBeq_iff a b)

/-- Decidable equality of Except results, used to evaluate concrete runs. -/
instance {e a : Type} [DecidableEq e] [DecidableEq a] : DecidableEq (Except e a) := fun x y =>
  match x, y with
  | .ok u, .ok w => decidable_of_iff (u = w) (by simp)
  | .error u, .error w => decidable_of_iff (u = w) (by simp)
  | .ok _, .error _ => isFalse (by simp)
  | .error _, .ok _ => isFalse (by simp)

/-- Bytes of a C string: the prefix of a byte list up to (excluding) the first
NUL byte.  This is the value a C consumer (strlen, strcpy, strdup,
PyString_FromString) sees in a buffer obtained from PyString_AsString or
PyBytes_AsString. -/
def cstr (s : List Nat) : List Nat := s.takeWhile (fun b => b != 0)

/-- Whether an integer is representable as a signed 64-bit value.  PyInt_AsLong
and PyLong_AsLongLong raise OverflowError exactly outside this range. -/
def fitsInt64 (n : Int) : Bool :=
  decide (-9223372036854775808 ≤ n) && decide (n < 9223372036854775808)

/-- Byte list of an ASCII string literal (all literals compared against in the
source are ASCII, so codepoints coincide with bytes). -/
def strBytes (s : String) : List Nat := s.data.map (fun c => c.toNat)

/-- The client handle fields consulted by conversions.c. -/
structure Client where
  strict_types : Bool
  has_geo : Bool

/-- External collaborators of conversions.c, passed in as functions:
ser models serialize_based_on_serializer_policy (the policy-selected fallback
serializer, returning the sub-type byte it chose and the payload),
deser models the pluggable deserializers consulted for non-raw byte values,
dumps models AerospikeGeospatial_DoDumps followed by PyString_AsString, and
loads models AerospikeGeospatial_DoLoads.  The static pool is not modelled:
GET_BYTES_POOL is assumed to succeed (allocation failure is out of scope). -/
structure ExtFns where
  ser : PyObj → Except Err (BytesType × List Nat)
  deser : BytesType → List Nat → Except Err PyObj
  dumps : PyObj → List Nat
  loads : List Nat → Except Err PyObj

/-- The replace-or-append semantics of as_map_set on an as_hashmap, with the
map modelled as its ordered sequence of entries. -/
def asMapSet (m : List (AsVal × AsVal)) (k v : AsVal) : List (AsVal × AsVal) :=
  if m.any (fun p => p.1 == k) then m.map (fun p => if p.1 == k then (p.1, v) else p)
  else m ++ [(k, v)]

mutual
/-- Embedding of pyobject_to_val (conversions.c lines 399 to 510).  The PyInt
and PyLong branches are merged into the single pyInt case: both range-check
into a signed 64-bit integer and report the same overflow error.  A Python
bool passes PyBool_Check first and is handed to the fallback serializer. -/
def pyobject_to_val (self : Client) (ext : ExtFns) : PyObj → Except Err AsVal
  | .pyBool b => do
      let tb ← ext.ser (.pyBool b)
      .ok (.bytes tb.1 tb.2)
  | .pyInt n =>
      if fitsInt64 n then .ok (.integer n)
      else .error ⟨.param, "integer value exceeds sys.maxsize"⟩
  | .pyUni s => .ok (.string (cstr s))
  | .pyStr s => .ok (.string (cstr s))
  | .pyBytes b => .ok (.bytes .blob b)
  | .pyGeo d =>
      if self.has_geo then .ok (.geojson (cstr (ext.dumps d)))
      else do
        let tb ← ext.ser d
        .ok (.bytes tb.1 tb.2)
  | .pyByteArray b => do
      let tb ← ext.ser (.pyByteArray b)
      .ok (.bytes tb.1 tb.2)
  | .pyList xs => AsVal.list <$> pyobject_to_list self ext xs
  | .pyDict es => AsVal.map <$> pyobject_to_map_go self ext es []
  | .pyNone => .ok .nil
  | .pyNull => .ok .nil
  | .pyWildcard => .ok .wildcard
  | .pyInfinity => .ok .infinity
  | .pyFloat bits => .ok (.double bits)
  | x => do
      let tb ← ext.ser x
      .ok (.bytes tb.1 tb.2)

/-- Embedding of pyobject_to_list (lines 335 to 360): convert each element in
order with pyobject_to_val and append it to the arraylist; stop at the first
failing element (the partially built list is destroyed by the source and never
returned). -/
def pyobject_to_list (self : Client) (ext : ExtFns) : List PyObj → Except Err (List AsVal)
  | [] => .ok []
  | x :: xs => do
      let v ← pyobject_to_val self ext x
      let vs ← pyobject_to_list self ext xs
      .ok (v :: vs)

/-- Loop body of pyobject_to_map (lines 362 to 397): convert key and value of
each entry in dictionary order and as_map_set them into the accumulated map;
stop at the first failure. -/
def pyobject_to_map_go (self : Client) (ext : ExtFns) :
    List (PyObj × PyObj) → List (AsVal × AsVal) → Except Err (List (AsVal × AsVal))
  | [], m => .ok m
  | (k, v) :: rest, m => do
      let k2 ← pyobject_to_val self ext k
      let v2 ← pyobject_to_val self ext v
      pyobject_to_map_go self ext rest (asMapSet m k2 v2)
end

/-- Embedding of pyobject_to_map: the loop starts from a fresh hashmap. -/
def pyobject_to_map (self : Client) (ext : ExtFns) (es : List (PyObj × PyObj)) :
    Except Err (List (AsVal × AsVal)) :=
  pyobject_to_map_go self ext es []

/-- Embedding of pyobject_to_astype_write (lines 754 to 841).  Unlike
pyobject_to_val, the integer branches perform no overflow check: on overflow
PyLong_AsLongLong returns -1 with a pending exception that this function
ignores, so -1 is stored.  The PyByteArray branch wraps the raw bytes instead
of serializing them. -/
def pyobject_to_astype_write (self : Client) (ext : ExtFns) : PyObj → Except Err AsVal
  | .pyBool b => do
      let tb ← ext.ser (.pyBool b)
      .ok (.bytes tb.1 tb.2)
  | .pyInt n => .ok (.integer (if fitsInt64 n then n else -1))
  | .pyUni s => .ok (.string (cstr s))
  | .pyStr s => .ok (.string (cstr s))
  | .pyGeo d =>
      if self.has_geo then .ok (.geojson (cstr (ext.dumps d)))
      else do
        let tb ← ext.ser d
        .ok (.bytes tb.1 tb.2)
  | .pyByteArray b => .ok (.bytes .blob b)
  | .pyList xs => AsVal.list <$> pyobject_to_list self ext xs
  | .pyDict es => AsVal.map <$> pyobject_to_map self ext es
  | .pyNull => .ok .nil
  | .pyWildcard => .ok .wildcard
  | .pyInfinity => .ok .infinity
  | .pyFloat bits => .ok (.double bits)
  | x => do
      let tb ← ext.ser x
      .ok (.bytes tb.1 tb.2)

/-- The locator stored into an as_key by the as_key_init family. -/
inductive KeyLoc where
  | kstr (s : List Nat)
  | kint (n : Int)
  | kraw (b : List Nat)
  | kdigest (b : List Nat)
  deriving DecidableEq, Repr

/-- The key produced by pyobject_to_key: namespace, optional set, and the
locator chosen by the as_key_init call that ran. -/
structure KeyModel where
  ns : List Nat
  set : Option (List Nat)
  loc : KeyLoc
  deriving DecidableEq, Repr

/-- PyDict_GetItemString: look up a string key in a dictionary.  A unicode key
with the same text is hash-equal to the interned lookup string and also
matches. -/
def dictGetStr (es : List (PyObj × PyObj)) (name : String) : Option PyObj :=
  (es.find? (fun p =>
    match p.1 with
    | .pyStr s => s == strBytes name
    | .pyUni s => s == strBytes name
    | _ => false)).map Prod.snd

/-- Shape dispatch of pyobject_to_key (lines 856 to 883): a positional tuple of
length 3 or 4, or a mapping with ns, set, key and digest entries; anything
else is rejected. -/
def key_fields : PyObj → Except Err (Option PyObj × Option PyObj × Option PyObj × Option PyObj)
  | .pyTuple xs =>
      if xs.length < 3 || 4 < xs.length then
        .error ⟨.param, "key tuple must be (Namespace, Set, Key) or (Namespace, Set, None, Digest)"⟩
      else .ok (xs[0]?, xs[1]?, xs[2]?, xs[3]?)
  | .pyDict es => .ok (dictGetStr es "ns", dictGetStr es "set", dictGetStr es "key", dictGetStr es "digest")
  | _ => .error ⟨.param, "key is invalid"⟩

/-- Namespace validation of pyobject_to_key (lines 886 to 894): required and
must pass PyString_Check; no emptiness check is performed. -/
def parse_key_ns : Option PyObj → Except Err (List Nat)
  | none => .error ⟨.param, "namespace is required"⟩
  | some (.pyStr s) => .ok (cstr s)
  | some _ => .error ⟨.param, "namespace must be a string"⟩

/-- Set validation of pyobject_to_key (lines 896 to 908): absent or None means
no set; a byte string or a unicode string is accepted; anything else fails. -/
def parse_key_set : Option PyObj → Except Err (Option (List Nat))
  | none => .ok none
  | some .pyNone => .ok none
  | some (.pyStr s) => .ok (some (cstr s))
  | some (.pyUni s) => .ok (some (cstr s))
  | some _ => .error ⟨.param, "set must be a string"⟩

/-- User-key dispatch of pyobject_to_key (lines 912 to 962).  A Python bool
passes PyInt_Check and is stored as the integer 0 or 1.  A PyBytes user key is
stored as a string via strdup, so it is truncated at the first NUL byte. -/
def parse_user_key : PyObj → Except Err KeyLoc
  | .pyUni s => .ok (.kstr (cstr s))
  | .pyStr s => .ok (.kstr (cstr s))
  | .pyBool b => .ok (.kint (if b then 1 else 0))
  | .pyInt n =>
      if fitsInt64 n then .ok (.kint n)
      else .error ⟨.param, "integer value for KEY exceeds sys.maxsize"⟩
  | .pyByteArray b =>
      if b.length == 0 then .error ⟨.param, "Byte array size cannot be 0"⟩
      else .ok (.kraw b)
  | .pyBytes b => .ok (.kstr (cstr b))
  | _ => .error ⟨.param, "key is invalid"⟩

/-- Digest dispatch of pyobject_to_key (lines 963 to 977): only a bytearray of
exactly 20 bytes is accepted, and the received length is echoed in the error
message. -/
def parse_digest : PyObj → Except Err KeyLoc
  | .pyByteArray b =>
      if b.length == 20 then .ok (.kdigest b)
      else .error ⟨.param, "digest size is invalid. should be 20 bytes, but received " ++ toString b.length⟩
  | _ => .error ⟨.param, "digest is invalid. expected a bytearray"⟩

/-- The py_obj and py_obj != Py_None test used for the user key and the
digest. -/
def pickNonNone : Option PyObj → Option PyObj
  | some .pyNone => none
  | some x => some x
  | none => none

/-- Validation sequence of pyobject_to_key (lines 886 to 991) over the four
extracted fields: namespace, set, then the user key if present (taking
precedence over any digest), else the digest, else failure. -/
def key_from_fields (f : Option PyObj × Option PyObj × Option PyObj × Option PyObj) :
    Except Err KeyModel := do
  let ns ← parse_key_ns f.1
  let set ← parse_key_set f.2.1
  let loc ← match pickNonNone f.2.2.1 with
    | some k => parse_user_key k
    | none =>
      match pickNonNone f.2.2.2 with
      | some d => parse_digest d
      | none => .error ⟨.param, "either key or digest is required"⟩
  .ok ⟨ns, set, loc⟩

/-- Embedding of pyobject_to_key (lines 843 to 991): shape dispatch, then the
common validation sequence. -/
def pyobject_to_key (x : PyObj) : Except Err KeyModel := do
  let f ← key_fields x
  key_from_fields f

/-- Modelled from the spec: deserialize_based_on_as_bytes_type lives in
serializer.c, which is not part of the provided sources.  Per the spec, the
sub-type byte of a Bytes value is consulted to pick a deserializer; a raw blob
(the tag produced by as_bytes_new_wrap on the write path) yields the bytes
unchanged with byte equality, and serialized payload tags dispatch to the
pluggable deserializer. -/
def deserialize_based_on_as_bytes_type (ext : ExtFns) (t : BytesType) (b : List Nat) :
    Except Err PyObj :=
  match t with
  | .blob => .ok (.pyBytes b)
  | _ => ext.deser t b

/-- Whether a Python object can be used as a dictionary key.  Lists,
dictionaries and bytearrays are unhashable; the objects reaching
PyDict_SetItem as keys on the modelled read paths are scalars, so the
remaining cases are hashable. -/
def pyHashable : PyObj → Bool
  | .pyList _ => false
  | .pyDict _ => false
  | .pyByteArray _ => false
  | _ => true

/-- PyDict_SetItem: fails for an unhashable key (surfaced by the source as a
client error), otherwise replaces the entry with an equal key or appends a new
entry. -/
def pyDictSetItem (d : List (PyObj × PyObj)) (k v : PyObj) : Except Err (List (PyObj × PyObj)) :=
  if pyHashable k then
    .ok (if d.any (fun p => p.1 == k) then d.map (fun p => if p.1 == k then (p.1, v) else p)
         else d ++ [(k, v)])
  else .error ⟨.client, "Unable to use unhashable type as a dictionary key"⟩

/-- PyDict_SetItemString: the key is a C string, always hashable. -/
def pyDictSetItemString (d : List (PyObj × PyObj)) (name : List Nat) (v : PyObj) :
    List (PyObj × PyObj) :=
  if d.any (fun p => p.1 == PyObj.pyStr name) then
    d.map (fun p => if p.1 == PyObj.pyStr name then (p.1, v) else p)
  else d ++ [(.pyStr name, v)]

mutual
/-- Embedding of do_val_to_pyobject (lines 1002 to 1116).  The AS_REC case is
not modelled: no value built by the write path ever nests a record, and the
value model here has no record variant.  AS_CMP_WILDCARD and AS_CMP_INF values
fall into the default branch of the switch, a client error. -/
def do_val_to_pyobject (self : Client) (ext : ExtFns) (cnvt_list_to_map : Bool) :
    AsVal → Except Err PyObj
  | .integer n => .ok (.pyInt n)
  | .double bits => .ok (.pyFloat bits)
  | .string s => .ok (.pyStr (cstr s))
  | .bytes t b => deserialize_based_on_as_bytes_type ext t b
  | .list xs =>
      if cnvt_list_to_map then
        if xs.length % 2 != 0 then .error ⟨.client, "Invalid key list of key/value pairs"⟩
        else PyObj.pyList <$> as_list_of_map_pairs self ext xs
      else PyObj.pyList <$> list_to_pyobject self ext xs
  | .map ps => PyObj.pyDict <$> map_to_pyobject_go self ext ps []
  | .nil => .ok .pyNone
  | .geojson s => do
      let d ← ext.loads (cstr s)
      .ok (.pyGeo d)
  | .wildcard => .error ⟨.client, "Unknown type for value"⟩
  | .infinity => .error ⟨.client, "Unknown type for value"⟩

/-- Embedding of list_to_pyobject (lines 1206 to 1229): convert the elements in
order; the first failure aborts and the partial list is dropped. -/
def list_to_pyobject (self : Client) (ext : ExtFns) : List AsVal → Except Err (List PyObj)
  | [] => .ok []
  | v :: vs => do
      let p ← do_val_to_pyobject self ext false v
      let ps ← list_to_pyobject self ext vs
      .ok (p :: ps)

/-- Loop body of map_to_pyobject (lines 1231 to 1303): convert key then value,
then PyDict_SetItem them; unhashable keys fail the conversion. -/
def map_to_pyobject_go (self : Client) (ext : ExtFns) :
    List (AsVal × AsVal) → List (PyObj × PyObj) → Except Err (List (PyObj × PyObj))
  | [], d => .ok d
  | (k, v) :: rest, d => do
      let pk ← do_val_to_pyobject self ext false k
      let pv ← do_val_to_pyobject self ext false v
      let d2 ← pyDictSetItem d pk pv
      map_to_pyobject_go self ext rest d2

/-- Pairing loop of as_list_of_map_to_py_tuple_list (lines 1140 to 1173): take
the elements two at a time, convert each pair and emit a 2-tuple.  The
singleton case mirrors the null check on as_list_get past the end; the caller
has already rejected odd lengths. -/
def as_list_of_map_pairs (self : Client) (ext : ExtFns) : List AsVal → Except Err (List PyObj)
  | [] => .ok []
  | k :: v :: rest => do
      let pk ← do_val_to_pyobject self ext false k
      let pv ← do_val_to_pyobject self ext false v
      let ps ← as_list_of_map_pairs self ext rest
      .ok (.pyTuple [pk, pv] :: ps)
  | [_] => .error ⟨.client, "Null object found in returned list"⟩
end

/-- Embedding of val_to_pyobject (lines 1118 to 1120). -/
def val_to_pyobject (self : Client) (ext : ExtFns) (v : AsVal) : Except Err PyObj :=
  do_val_to_pyobject self ext false v

/-- Embedding of val_to_pyobject_cnvt_list_to_map (lines 1122 to 1124). -/
def val_to_pyobject_cnvt_list_to_map (self : Client) (ext : ExtFns) (v : AsVal) :
    Except Err PyObj :=
  do_val_to_pyobject self ext true v

/-- Embedding of as_list_of_map_to_py_tuple_list (lines 1126 to 1181): reject
odd lengths up front, then flatten consecutive pairs into 2-tuples. -/
def as_list_of_map_to_py_tuple_list (self : Client) (ext : ExtFns) (xs : List AsVal) :
    Except Err PyObj :=
  if xs.length % 2 != 0 then .error ⟨.client, "Invalid key list of key/value pairs"⟩
  else PyObj.pyList <$> as_list_of_map_pairs self ext xs

/-- Embedding of map_to_pyobject: the loop starts from a fresh dictionary. -/
def map_to_pyobject (self : Client) (ext : ExtFns) (ps : List (AsVal × AsVal)) :
    Except Err PyObj :=
  PyObj.pyDict <$> map_to_pyobject_go self ext ps []

/-- The as_key structure as read by key_to_pyobject: C strings for namespace
and set (an absent set is the empty string), the optional user-key value, and
the digest with its init flag. -/
structure AKey where
  ns : List Nat
  set : List Nat
  valuep : Option AsVal
  digestInit : Bool
  digestVal : List Nat
  deriving DecidableEq, Repr

/-- Embedding of key_to_pyobject (lines 1368 to 1464): each of the four slots
is filled only under the conditions the source checks (non-empty namespace and
set strings, a user-key value of integer, string or bytes type, an initialized
digest) and defaults to None otherwise. -/
def key_to_pyobject (k : AKey) : PyObj :=
  let pyNs := if 0 < (cstr k.ns).length then PyObj.pyStr (cstr k.ns) else PyObj.pyNone
  let pySet := if 0 < (cstr k.set).length then PyObj.pyStr (cstr k.set) else PyObj.pyNone
  let pyKey :=
    match k.valuep with
    | some (.integer n) => PyObj.pyInt n
    | some (.string s) => PyObj.pyStr (cstr s)
    | some (.bytes _ b) => PyObj.pyByteArray b
    | _ => PyObj.pyNone
  let pyDig := if k.digestInit then PyObj.pyByteArray k.digestVal else PyObj.pyNone
  .pyTuple [pyNs, pySet, pyKey, pyDig]

/-- The as_record read by the record externalizers: key, metadata and the wire
bins in order (duplicate names possible after an operate call). -/
structure ARecord where
  key : AKey
  gen : Nat
  ttl : Nat
  bins : List (List Nat × AsVal)
  deriving DecidableEq, Repr

/-- Embedding of metadata_to_pyobject (lines 1593 to 1614): a dictionary always
holding both ttl and gen. -/
def metadata_to_pyobject (r : ARecord) : PyObj :=
  .pyDict [(.pyStr (strBytes "ttl"), .pyInt (r.ttl : Int)),
           (.pyStr (strBytes "gen"), .pyInt (r.gen : Int))]

/-- Bin loop of bins_to_pyobject (lines 1466 to 1531): convert each bin value
(optionally in list-flattening mode) and set it into the result dictionary
under the bin name. -/
def bins_to_pyobject_go (self : Client) (ext : ExtFns) (cnvt : Bool) :
    List (List Nat × AsVal) → List (PyObj × PyObj) → Except Err (List (PyObj × PyObj))
  | [], d => .ok d
  | (name, v) :: rest, d => do
      let pv ← do_val_to_pyobject self ext cnvt v
      bins_to_pyobject_go self ext cnvt rest (pyDictSetItemString d (cstr name) pv)

/-- Embedding of bins_to_pyobject: canonical bin dictionary. -/
def bins_to_pyobject (self : Client) (ext : ExtFns) (r : ARecord) (cnvt : Bool) :
    Except Err PyObj :=
  PyObj.pyDict <$> bins_to_pyobject_go self ext cnvt r.bins []

/-- Embedding of do_record_to_pyobject (lines 1305 to 1356): the 3-tuple of
key (from the override if given, else the record), metadata and bins. -/
def do_record_to_pyobject (self : Client) (ext : ExtFns) (r : ARecord) (k : Option AKey)
    (cnvt : Bool) : Except Err PyObj := do
  let pyKey := key_to_pyobject (match k with | some kk => kk | none => r.key)
  let pyMeta := metadata_to_pyobject r
  let pyBins ← bins_to_pyobject self ext r cnvt
  .ok (.pyTuple [pyKey, pyMeta, pyBins])

/-- Embedding of record_to_pyobject (lines 1358 to 1361). -/
def record_to_pyobject (self : Client) (ext : ExtFns) (r : ARecord) (k : Option AKey) :
    Except Err PyObj :=
  do_record_to_pyobject self ext r k false

/-- Bin loop of operate_bins_to_pyobject (lines 1546 to 1591): one
(name, value) 2-tuple per wire bin occurrence, in iterator order. -/
def operate_bins_go (self : Client) (ext : ExtFns) :
    List (List Nat × AsVal) → Except Err (List PyObj)
  | [] => .ok []
  | (name, v) :: rest => do
      let pv ← val_to_pyobject self ext v
      let ps ← operate_bins_go self ext rest
      .ok (.pyTuple [.pyStr (cstr name), pv] :: ps)

/-- Embedding of operate_bins_to_pyobject: the list of per-occurrence bin
tuples. -/
def operate_bins_to_pyobject (self : Client) (ext : ExtFns) (r : ARecord) :
    Except Err PyObj :=
  PyObj.pyList <$> operate_bins_go self ext r.bins

/-- One entry of a batch result array: the key, whether the per-key outcome was
AEROSPIKE_OK, and the record (meaningful only when the outcome was OK). -/
structure BatchRead where
  key : AKey
  resultOk : Bool
  record : ARecord
  deriving DecidableEq, Repr

/-- Embedding of as_batch_read_results_to_pyobject (lines 1829 to 1880): one
3-tuple per entry, (key, meta, bins) when the outcome was OK and the record
converts, (key, None, None) otherwise; a record that fails to convert aborts
the whole batch with that error. -/
def as_batch_read_results_to_pyobject (self : Client) (ext : ExtFns) :
    List BatchRead → Except Err (List PyObj)
  | [] => .ok []
  | r :: rest =>
      if r.resultOk then do
        let t ← record_to_pyobject self ext r.record (some r.key)
        let ts ← as_batch_read_results_to_pyobject self ext rest
        .ok (t :: ts)
      else do
        let ts ← as_batch_read_results_to_pyobject self ext rest
        .ok (.pyTuple [key_to_pyobject r.key, .pyNone, .pyNone] :: ts)

/-- Embedding of batch_read_records_to_pyobject (lines 1882 to 1929): same
shape as as_batch_read_results_to_pyobject over an as_batch_read_records
vector. -/
def batch_read_records_to_pyobject (self : Client) (ext : ExtFns) :
    List BatchRead → Except Err (List PyObj)
  | [] => .ok []
  | r :: rest =>
      if r.resultOk then do
        let t ← record_to_pyobject self ext r.record (some r.key)
        let ts ← batch_read_records_to_pyobject self ext rest
        .ok (t :: ts)
      else do
        let ts ← batch_read_records_to_pyobject self ext rest
        .ok (.pyTuple [key_to_pyobject r.key, .pyNone, .pyNone] :: ts)

/-- PyInt_Check: true for a Python int and for a bool (bool subclasses int). -/
def pyIntCheck : PyObj → Bool
  | .pyInt _ => true
  | .pyBool _ => true
  | _ => false

/-- The integer value PyInt_AsLong or PyLong_AsLongLong reads from an object
passing pyIntCheck. -/
def pyIntValue : PyObj → Int
  | .pyInt n => n
  | .pyBool b => if b then 1 else 0
  | _ => 0

/-- The uint32_t cast applied to a C long long: reduction modulo 2 to the 32. -/
def truncU32 (v : Int) : Nat := (v % (4294967296 : Int)).toNat

/-- The uint16_t cast applied to a C long long: reduction modulo 2 to the 16. -/
def truncU16 (v : Int) : Nat := (v % (65536 : Int)).toNat

/-- Ttl step of check_for_meta (lines 1776 to 1789): wrong type is an
InvalidParam; an integer beyond the signed 64-bit range makes
PyLong_AsLongLong return -1 with a pending OverflowError, caught by the
sentinel test; any other integer is cast to uint32_t with silent reduction
modulo 2 to the 32 and stored. -/
def checkMetaTtl : Option PyObj → Nat → Except Err Nat
  | none, ttl => .ok ttl
  | some t, _ =>
      if pyIntCheck t then
        if fitsInt64 (pyIntValue t) then .ok (truncU32 (pyIntValue t))
        else .error ⟨.param, "integer value for ttl exceeds sys.maxsize"⟩
      else .error ⟨.param, "Ttl should be an int or long"⟩

/-- Gen step of check_for_meta (lines 1791 to 1804): as for ttl with a
uint16_t cast. -/
def checkMetaGen : Option PyObj → Nat → Except Err Nat
  | none, gen => .ok gen
  | some g, _ =>
      if pyIntCheck g then
        if fitsInt64 (pyIntValue g) then .ok (truncU16 (pyIntValue g))
        else .error ⟨.param, "integer value for gen exceeds sys.maxsize"⟩
      else .error ⟨.param, "Generation should be an int or long"⟩

/-- Embedding of check_for_meta (lines 1768 to 1809) on the (ttl, gen) fields
of an as_operations value: absent metadata or None leaves them unchanged, a
non-dictionary is an InvalidParam, and each present entry is processed by its
step, returning at the first error. -/
def check_for_meta (py_meta : Option PyObj) (ops : Nat × Nat) : Except Err (Nat × Nat) :=
  match py_meta with
  | some (.pyDict m) => do
      let ttl ← checkMetaTtl (dictGetStr m "ttl") ops.1
      let gen ← checkMetaGen (dictGetStr m "gen") ops.2
      .ok (ttl, gen)
  | some .pyNone => .ok ops
  | none => .ok ops
  | some _ => .error ⟨.param, "Metadata should be of type dictionary"⟩

/-- Result of the bin-name step for one record entry. -/
def bin_name_of (self : Client) : PyObj → Except Err (List Nat)
  | .pyUni s =>
      if self.strict_types && 15 < (cstr s).length then
        .error ⟨.binName, "A bin name should not exceed 14 characters limit"⟩
      else .ok (cstr s)
  | .pyStr s =>
      if self.strict_types && 15 < (cstr s).length then
        .error ⟨.binName, "A bin name should not exceed 14 characters limit"⟩
      else .ok (cstr s)
  | _ => .error ⟨.client, "A bin name must be a string or unicode string."⟩

/-- Per-bin value dispatch inside pyobject_to_record (lines 557 to 676),
distinguishing how each branch leaves the loop on failure: most failing
branches return from the function at once (ret), while a failing list or map
conversion only breaks out of the loop (brk) and the metadata section still
runs.  A PyBytes value has no branch of its own here and reaches the fallback
serializer. -/
inductive BinValRes where
  | ok (v : AsVal)
  | ret (e : Err)
  | brk (e : Err)
  deriving DecidableEq, Repr

/-- See BinValRes. -/
def record_bin_value (self : Client) (ext : ExtFns) : PyObj → BinValRes
  | .pyBool b =>
      match ext.ser (.pyBool b) with
      | .ok tb => .ok (.bytes tb.1 tb.2)
      | .error e => .ret e
  | .pyInt n =>
      if fitsInt64 n then .ok (.integer n)
      else .ret ⟨.param, "integer value exceeds sys.maxsize"⟩
  | .pyGeo d =>
      if self.has_geo then .ok (.geojson (cstr (ext.dumps d)))
      else
        match ext.ser d with
        | .ok tb => .ok (.bytes tb.1 tb.2)
        | .error e => .ret e
  | .pyUni s => .ok (.string (cstr s))
  | .pyStr s => .ok (.string (cstr s))
  | .pyByteArray b =>
      match ext.ser (.pyByteArray b) with
      | .ok tb => .ok (.bytes tb.1 tb.2)
      | .error e => .ret e
  | .pyList xs =>
      match pyobject_to_list self ext xs with
      | .ok vs => .ok (.list vs)
      | .error e => .brk e
  | .pyDict es =>
      match pyobject_to_map self ext es with
      | .ok ps => .ok (.map ps)
      | .error e => .brk e
  | .pyNull => .ok .nil
  | .pyFloat bits => .ok (.double bits)
  | x =>
      match ext.ser x with
      | .ok tb => .ok (.bytes tb.1 tb.2)
      | .error e => .ret e

/-- How the bin loop of pyobject_to_record finished. -/
inductive BinLoop where
  | done (bins : List (List Nat × AsVal))
  | ret (e : Err)
  | brk (e : Err)
  deriving DecidableEq, Repr

/-- The as_record_set family: replace the bin with the same name or append. -/
def record_set_bin (bins : List (List Nat × AsVal)) (name : List Nat) (v : AsVal) :
    List (List Nat × AsVal) :=
  if bins.any (fun p => p.1 == name) then
    bins.map (fun p => if p.1 == name then (p.1, v) else p)
  else bins ++ [(name, v)]

/-- Bin loop of pyobject_to_record (lines 533 to 688). -/
def record_bins_go (self : Client) (ext : ExtFns) :
    List (PyObj × PyObj) → List (List Nat × AsVal) → BinLoop
  | [], bins => .done bins
  | (key, value) :: rest, bins =>
      match bin_name_of self key with
      | .error e => .ret e
      | .ok name =>
          match record_bin_value self ext value with
          | .ret e => .ret e
          | .brk e => .brk e
          | .ok v => record_bins_go self ext rest (record_set_bin bins name v)

/-- Ttl step of the metadata section of pyobject_to_record (lines 697 to 715):
returns the error, if any, and the value left in rec.ttl.  Unlike
check_for_meta this section never returns early; on an int64 overflow rec.ttl
has already been assigned the uint32_t cast of -1. -/
def record_meta_ttl (cur : Nat) : Option PyObj → Option Err × Nat
  | none => (none, cur)
  | some t =>
      if pyIntCheck t then
        if fitsInt64 (pyIntValue t) then (none, truncU32 (pyIntValue t))
        else (some ⟨.param, "integer value exceeds sys.maxsize"⟩, 4294967295)
      else (some ⟨.param, "TTL should be an int or long"⟩, cur)

/-- Gen step of the metadata section of pyobject_to_record (lines 717 to 735). -/
def record_meta_gen (cur : Nat) : Option PyObj → Option Err × Nat
  | none => (none, cur)
  | some g =>
      if pyIntCheck g then
        if fitsInt64 (pyIntValue g) then (none, truncU16 (pyIntValue g))
        else (some ⟨.param, "integer value exceeds sys.maxsize"⟩, 65535)
      else (some ⟨.param, "Generation should be an int or long"⟩, cur)

/-- Metadata section of pyobject_to_record (lines 690 to 737): both steps run
(each as_error_update overwrites the message, so a gen error wins over a ttl
error), and the resulting ttl and gen are those left in the record. -/
def record_meta (py_meta : Option PyObj) : Option Err × Nat × Nat :=
  match py_meta with
  | none => (none, 0, 0)
  | some .pyNone => (none, 0, 0)
  | some (.pyDict m) =>
      let rt := record_meta_ttl 0 (dictGetStr m "ttl")
      let rg := record_meta_gen 0 (dictGetStr m "gen")
      (match rg.1 with
       | some e => some e
       | none => rt.1, rt.2, rg.2)
  | some _ => (some ⟨.param, "meta must be a dictionary"⟩, 0, 0)

/-- The all-empty as_key inside a freshly initialized as_record. -/
def emptyAKey : AKey := ⟨[], [], none, false, []⟩

/-- Embedding of pyobject_to_record (lines 516 to 748).  A ret from the bin
loop leaves the function before the metadata section; a brk falls through to
it, where a metadata error overwrites the bin error.  On any error the record
reaching the end of the function is destroyed and only the error is
returned. -/
def pyobject_to_record (self : Client) (ext : ExtFns) (py_rec : PyObj)
    (py_meta : Option PyObj) : Except Err ARecord :=
  match py_rec with
  | .pyDict entries =>
      match record_bins_go self ext entries [] with
      | .ret e => .error e
      | .brk e =>
          match record_meta py_meta with
          | (some e2, _, _) => .error e2
          | (none, _, _) => .error e
      | .done bins =>
          match record_meta py_meta with
          | (some e, _, _) => .error e
          | (none, ttl, gen) => .ok ⟨emptyAKey, gen, ttl, bins⟩
  | _ => .error ⟨.param, "Record should be passed as bin-value pair"⟩

/-- The as_cdt_ctx_type constants from the C client header. -/
def AS_CDT_CTX_LIST_INDEX : Nat := 0x10

/-- See AS_CDT_CTX_LIST_INDEX. -/
def AS_CDT_CTX_LIST_RANK : Nat := 0x11

/-- See AS_CDT_CTX_LIST_INDEX. -/
def AS_CDT_CTX_LIST_VALUE : Nat := 0x13

/-- See AS_CDT_CTX_LIST_INDEX. -/
def AS_CDT_CTX_MAP_INDEX : Nat := 0x20

/-- See AS_CDT_CTX_LIST_INDEX. -/
def AS_CDT_CTX_MAP_RANK : Nat := 0x21

/-- See AS_CDT_CTX_LIST_INDEX. -/
def AS_CDT_CTX_MAP_KEY : Nat := 0x22

/-- See AS_CDT_CTX_LIST_INDEX. -/
def AS_CDT_CTX_MAP_VALUE : Nat := 0x23

/-- Embedding of requires_int (lines 2055 to 2063). -/
def requires_int (op : Nat) : Bool :=
  op == AS_CDT_CTX_LIST_INDEX || op == AS_CDT_CTX_LIST_RANK ||
  op == AS_CDT_CTX_MAP_INDEX || op == AS_CDT_CTX_MAP_RANK

/-- PyLong_AsLong: the signed C long (64-bit) read from an integer-like
object; fails (OverflowError or TypeError) otherwise. -/
def pyLongAsLong : PyObj → Option Int
  | .pyInt n => if fitsInt64 n then some n else none
  | .pyBool b => some (if b then 1 else 0)
  | _ => none

/-- PyLong_AsUnsignedLong: the unsigned C long read from an integer-like
object; fails for negative or too-large values and for non-integers. -/
def pyLongAsUnsignedLong : PyObj → Option Nat
  | .pyInt n => if 0 ≤ n && n < 18446744073709551616 then some n.toNat else none
  | .pyBool b => some (if b then 1 else 0)
  | _ => none

/-- The implicit long to int conversion applied when storing the payload into
the C int int_val: two-complement wrap to 32 bits. -/
def toInt32 (v : Int) : Int := (v + 2147483648) % 4294967296 - 2147483648

/-- One step of an as_cdt_ctx context path. -/
inductive CtxStep where
  | listIndex (i : Int)
  | listRank (i : Int)
  | mapIndex (i : Int)
  | mapRank (i : Int)
  | listValue (v : AsVal)
  | mapKey (v : AsVal)
  | mapValue (v : AsVal)
  deriving DecidableEq, Repr

/-- Integer-payload branch of the get_cdt_ctx item dispatch (lines 2000 to
2022): read the payload with PyLong_AsLong, truncate it to a C int, and add
the step named by the kind; the default arm of the switch is unreachable for
the four kinds that reach this branch but present in the source. -/
def ctx_item_int (item_type : Nat) (valv : PyObj) : Except (Err × Bool) CtxStep :=
  match pyLongAsLong valv with
  | none => .error (⟨.param, "Failed to convert ctx"⟩, true)
  | some lv =>
      let int_val := toInt32 lv
      if item_type == AS_CDT_CTX_LIST_INDEX then .ok (.listIndex int_val)
      else if item_type == AS_CDT_CTX_LIST_RANK then .ok (.listRank int_val)
      else if item_type == AS_CDT_CTX_MAP_INDEX then .ok (.mapIndex int_val)
      else if item_type == AS_CDT_CTX_MAP_RANK then .ok (.mapRank int_val)
      else .error (⟨.param, "Failed to convert, unknown ctx operation ctx"⟩, true)

/-- Kind switch of the value-payload branch (lines 2027 to 2040). -/
def ctx_item_value_pick (item_type : Nat) (v : AsVal) : Except (Err × Bool) CtxStep :=
  if item_type == AS_CDT_CTX_LIST_VALUE then .ok (.listValue v)
  else if item_type == AS_CDT_CTX_MAP_KEY then .ok (.mapKey v)
  else if item_type == AS_CDT_CTX_MAP_VALUE then .ok (.mapValue v)
  else .error (⟨.param, "Failed to convert, unknown ctx operation ctx"⟩, true)

/-- Value-payload branch of the get_cdt_ctx item dispatch (lines 2023 to
2041): run the generic value converter; its failure is the one error path
that returns without destroying the context (line 2024), recorded by the
false flag. -/
def ctx_item_value (self : Client) (ext : ExtFns) (item_type : Nat) (valv : PyObj) :
    Except (Err × Bool) CtxStep :=
  match pyobject_to_val self ext valv with
  | .error _ => .error (⟨.param, "Failed to convert ctx"⟩, false)
  | .ok v => ctx_item_value_pick item_type v

/-- Dispatch on requires_int for a known kind (lines 1999 to 2041). -/
def ctx_item_known (self : Client) (ext : ExtFns) (item_type : Nat) (valv : PyObj) :
    Except (Err × Bool) CtxStep :=
  if requires_int item_type then ctx_item_int item_type valv
  else ctx_item_value self ext item_type valv

/-- Per-item dispatch of the get_cdt_ctx loop (lines 1981 to 2044): read the
id attribute with PyLong_AsUnsignedLong, then process the value payload by
kind. -/
def ctx_item_step (self : Client) (ext : ExtFns) (idv valv : PyObj) :
    Except (Err × Bool) CtxStep :=
  match pyLongAsUnsignedLong idv with
  | none => .error (⟨.param, "Failed to convert ctx"⟩, true)
  | some item_type => ctx_item_known self ext item_type valv

/-- Item loop of get_cdt_ctx (lines 1978 to 2045): attribute objects are
processed by ctx_item_step, each successful step is appended to the context
under construction, and an item without id and value attributes fails the
conversion (with the context destroyed). -/
def get_cdt_ctx_items (self : Client) (ext : ExtFns) :
    List PyObj → List CtxStep → Except (Err × Bool) (List CtxStep)
  | [], acc => .ok acc
  | .pyCtxWrapper idv valv :: rest, acc =>
      (match ctx_item_step self ext idv valv with
      | .error e => .error e
      | .ok st => get_cdt_ctx_items self ext rest (acc ++ [st]))
  | _ :: _, _ => .error (⟨.param, "Failed to convert ctx"⟩, true)

/-- Embedding of get_cdt_ctx (lines 1962 to 2053): absent ctx key means no
context (ctx_in_use stays false, modelled as the ok none result); a non-list
ctx value is rejected; otherwise the item loop builds the path. -/
def get_cdt_ctx (self : Client) (ext : ExtFns) (op_dict : List (PyObj × PyObj)) :
    Except (Err × Bool) (Option (List CtxStep)) :=
  match dictGetStr op_dict "ctx" with
  | none => .ok none
  | some (.pyList xs) => (fun steps => some steps) <$> get_cdt_ctx_items self ext xs []
  | some _ => .error (⟨.param, "Failed to convert ctx"⟩, true)

/-- A concrete client for concrete evaluations: non-strict, no geo support. -/
def client0 : Client := ⟨false, false⟩

/-- A concrete collaborator set for concrete evaluations: the serializer tags
every payload as python-serialized bytes [7]; deserializer and geo codec
always fail. -/
def ext0 : ExtFns :=
  ⟨fun _ => .ok (.python, [7]),
   fun _ _ => .error ⟨.client, "no deserializer"⟩,
   fun _ => [],
   fun _ => .error ⟨.client, "no geo loads"⟩⟩

@[simp] theorem except_bind_ok {e a b : Type} (x : a) (f : a → Except e b) :
    (Except.ok x >>= f) = f x := rfl

@[simp] theorem except_bind_error {e a b : Type} (err : e) (f : a → Except e b) :
    ((Except.error err : Except e a) >>= f) = .error err := rfl

@[simp] theorem except_map_ok {e a b : Type} (f : a → b) (x : a) :
    (f <$> (Except.ok x : Except e a)) = .ok (f x) := rfl

@[simp] theorem except_map_error {e a b : Type} (f : a → b) (err : e) :
    (f <$> (Except.error err : Except e a)) = .error err := rfl

/-- An emptiness-flavoured reading of the length test in key_to_pyobject. -/
theorem ite_len_pos (s : List Nat) :
    (if 0 < s.length then PyObj.pyStr s else PyObj.pyNone) =
      (if s = [] then PyObj.pyNone else PyObj.pyStr s) := by
  rcases s with _ | ⟨a, t⟩ <;> simp

/-- C10: when a Key is externalized to its 4-tuple, a namespace or set whose
stored C string is empty is emitted as None, not as an empty string: the
string slots are filled with a Python string exactly when the stored C string
is non-empty. -/
theorem c10_key_to_pyobject_empty_ns_set_are_none (k : AKey) :
    ∃ uk ud, key_to_pyobject k =
      .pyTuple [if cstr k.ns = [] then PyObj.pyNone else .pyStr (cstr k.ns),
                if cstr k.set = [] then PyObj.pyNone else .pyStr (cstr k.set),
                uk, ud] := by
  refine ⟨(match k.valuep with
    | some (.integer n) => PyObj.pyInt n
    | some (.string s) => PyObj.pyStr (cstr s)
    | some (.bytes _ b) => PyObj.pyByteArray b
    | _ => PyObj.pyNone),
    (if k.digestInit then PyObj.pyByteArray k.digestVal else PyObj.pyNone), ?_⟩
  unfold key_to_pyobject
  rw [ite_len_pos (cstr k.ns), ite_len_pos (cstr k.set)]

/-- C3: the claim states that every conversion entry point releases everything
it allocated before returning a non-OK status.  get_cdt_ctx documents exactly
that contract for itself, but the error path where the generic value
conversion of a value-kind step fails returns the initialized (and already
partially filled) as_cdt_ctx without calling as_cdt_ctx_destroy: here the
first step has already been added when the second step's oversized integer
payload fails the generic conversion, and the error is returned with the
destroyed flag false. -/
theorem c3_get_cdt_ctx_error_path_skips_destroy :
    get_cdt_ctx client0 ext0
      [(.pyStr (strBytes "ctx"),
        .pyList [.pyCtxWrapper (.pyInt 16) (.pyInt 1),
                 .pyCtxWrapper (.pyInt 34) (.pyInt 9223372036854775808)])] =
      .error (⟨.param, "Failed to convert ctx"⟩, false) := by decide

/-- C2 counterexample: pyobject_to_key succeeds on an empty namespace string
(the claim requires non-empty), and succeeds with a 3-byte digest when a user
key is also supplied (the claim requires any digest of length other than 20 to
fail). -/
theorem c2_counterexample_empty_ns_and_ignored_digest :
    pyobject_to_key (.pyTuple [.pyStr [], .pyNone, .pyInt 1]) = .ok ⟨[], none, .kint 1⟩ ∧
    pyobject_to_key (.pyTuple [.pyStr [116], .pyNone, .pyInt 1, .pyByteArray [1, 2, 3]]) =
      .ok ⟨[116], none, .kint 1⟩ := ⟨rfl, rfl⟩

/-- C9 counterexample: a ttl of 2 to the 32 (out of unsigned 32-bit range) is
not flagged as an overflow error by either metadata path; it is silently
truncated to 0 and the conversion succeeds. -/
theorem c9_counterexample_ttl_silent_truncation :
    pyobject_to_record client0 ext0 (.pyDict [])
      (some (.pyDict [(.pyStr (strBytes "ttl"), .pyInt 4294967296)])) =
      .ok ⟨emptyAKey, 0, 0, []⟩ ∧
    check_for_meta (some (.pyDict [(.pyStr (strBytes "ttl"), .pyInt 4294967296)])) (0, 0) =
      .ok (0, 0) := by decide

/-- C4 counterexample: a batch whose first entry holds a record with a bin
value that fails conversion (a comparison wildcard, whose externalization is a
client error, not an allocation failure) makes the whole batch conversion
fail: no per-entry 3-tuples are produced, and the second (not-found) entry is
never processed. -/
theorem c4_counterexample_whole_batch_fails_on_conversion :
    as_batch_read_results_to_pyobject client0 ext0
      [⟨⟨[116], [], none, false, []⟩, true,
        ⟨⟨[116], [], none, false, []⟩, 0, 0, [([97], .wildcard)]⟩⟩,
       ⟨⟨[117], [], none, false, []⟩, false, ⟨emptyAKey, 0, 0, []⟩⟩] =
      .error ⟨.client, "Unknown type for value"⟩ ∧
    batch_read_records_to_pyobject client0 ext0
      [⟨⟨[116], [], none, false, []⟩, true,
        ⟨⟨[116], [], none, false, []⟩, 0, 0, [([97], .wildcard)]⟩⟩,
       ⟨⟨[117], [], none, false, []⟩, false, ⟨emptyAKey, 0, 0, []⟩⟩] =
      .error ⟨.client, "Unknown type for value"⟩ := by decide

/-- The flattening of an even-length converted element list into consecutive
2-tuples: element 2i is paired with element 2i+1, in original order. -/
def pairTuples : List PyObj → List PyObj
  | p :: q :: rest => .pyTuple [p, q] :: pairTuples rest
  | _ => []

/-- pairTuples halves the length. -/
theorem pairTuples_length : ∀ ps : List PyObj, (pairTuples ps).length = ps.length / 2
  | [] => rfl
  | [_] => by simp [pairTuples]
  | _ :: _ :: rest => by
      simp only [pairTuples, List.length_cons, pairTuples_length rest]
      omega

/-- The pairing loop converts an even-length list whose elements all convert
into exactly the flattened tuple list. -/
theorem as_list_of_map_pairs_ok (self : Client) (ext : ExtFns) :
    ∀ (xs : List AsVal) (ps : List PyObj), xs.length % 2 = 0 →
      List.Forall₂ (fun v p => val_to_pyobject self ext v = .ok p) xs ps →
      as_list_of_map_pairs self ext xs = .ok (pairTuples ps)
  | [], ps, _, hf => by cases hf; rfl
  | [x], _, h, _ => by simp at h
  | k :: v :: rest, ps, h, hf => by
      rcases hf with _ | ⟨hk, hf2⟩
      rcases hf2 with _ | ⟨hv, hf3⟩
      have hrest : rest.length % 2 = 0 := by
        simp only [List.length_cons] at h
        omega
      have hr := as_list_of_map_pairs_ok self ext rest _ hrest hf3
      simp only [val_to_pyobject] at hk hv
      simp [as_list_of_map_pairs, pairTuples, hk, hv, hr]

/-- C5: in flatten mode, every List value of odd length is rejected with a
ClientError, and every List value of even length 2n whose elements all
externalize is converted to exactly n 2-tuples pairing element 2i with element
2i+1 in original order. -/
theorem c5_flatten_mode (self : Client) (ext : ExtFns) :
    (∀ xs : List AsVal, xs.length % 2 = 1 →
        as_list_of_map_to_py_tuple_list self ext xs =
          .error ⟨.client, "Invalid key list of key/value pairs"⟩) ∧
    (∀ (xs : List AsVal) (ps : List PyObj), xs.length % 2 = 0 →
        List.Forall₂ (fun v p => val_to_pyobject self ext v = .ok p) xs ps →
        as_list_of_map_to_py_tuple_list self ext xs = .ok (.pyList (pairTuples ps)) ∧
        (pairTuples ps).length = xs.length / 2) := by
  constructor
  · intro xs h
    unfold as_list_of_map_to_py_tuple_list
    simp [h]
  · intro xs ps h hf
    have hp := as_list_of_map_pairs_ok self ext xs ps h hf
    constructor
    · unfold as_list_of_map_to_py_tuple_list
      simp [h, hp]
    · rw [pairTuples_length, hf.length_eq]

/-- C5 witness: an odd singleton is rejected; a 2-element list flattens to one
pair. -/
theorem c5_witness :
    as_list_of_map_to_py_tuple_list client0 ext0 [.integer 1] =
      .error ⟨.client, "Invalid key list of key/value pairs"⟩ ∧
    as_list_of_map_to_py_tuple_list client0 ext0 [.string [107], .integer 2] =
      .ok (.pyList [.pyTuple [.pyStr [107], .pyInt 2]]) :=
  ⟨(c5_flatten_mode client0 ext0).1 [.integer 1] rfl,
   ((c5_flatten_mode client0 ext0).2 [.string [107], .integer 2]
      [.pyStr [107], .pyInt 2] rfl (.cons rfl (.cons rfl .nil))).1⟩

/-- The operate bin loop emits one (name, value) tuple per wire bin occurrence
in order. -/
theorem operate_bins_go_ok (self : Client) (ext : ExtFns) :
    ∀ (bs : List (List Nat × AsVal)) (ps : List PyObj),
      List.Forall₂ (fun b p => val_to_pyobject self ext b.2 = .ok p) bs ps →
      operate_bins_go self ext bs =
        .ok (List.zipWith (fun b p => PyObj.pyTuple [.pyStr (cstr b.1), p]) bs ps)
  | [], ps, hf => by cases hf; rfl
  | (name, v) :: rest, ps, hf => by
      rcases hf with _ | ⟨hv, hf2⟩
      have hr := operate_bins_go_ok self ext rest _ hf2
      simp only [val_to_pyobject] at hv
      simp [operate_bins_go, val_to_pyobject, hv, hr]

/-- C6: operate-ordered externalization produces one (bin name, value) pair
per wire bin occurrence, preserving duplicate bin names and their original
order; the output has exactly one tuple per bin occurrence. -/
theorem c6_operate_ordered_preserves_duplicates (self : Client) (ext : ExtFns)
    (r : ARecord) (ps : List PyObj)
    (hf : List.Forall₂ (fun b p => val_to_pyobject self ext b.2 = .ok p) r.bins ps) :
    operate_bins_to_pyobject self ext r =
      .ok (.pyList (List.zipWith (fun b p => PyObj.pyTuple [.pyStr (cstr b.1), p]) r.bins ps)) ∧
    (List.zipWith (fun b p => PyObj.pyTuple [.pyStr (cstr b.1), p]) r.bins ps).length =
      r.bins.length := by
  constructor
  · unfold operate_bins_to_pyobject
    simp [operate_bins_go_ok self ext r.bins ps hf]
  · rw [List.length_zipWith, hf.length_eq, Nat.min_self]

/-- The record of the C6 example: bins b=5, b=6, c=[3,4,5] in wire order. -/
def opRec6 : ARecord :=
  ⟨emptyAKey, 0, 0,
   [([98], .integer 5), ([98], .integer 6), ([99], .list [.integer 3, .integer 4, .integer 5])]⟩

/-- C6 witness: the example bins externalize to exactly the 3-element ordered
tuple list. -/
theorem c6_witness :
    operate_bins_to_pyobject client0 ext0 opRec6 =
      .ok (.pyList [.pyTuple [.pyStr [98], .pyInt 5], .pyTuple [.pyStr [98], .pyInt 6],
                    .pyTuple [.pyStr [99], .pyList [.pyInt 3, .pyInt 4, .pyInt 5]]]) :=
  (c6_operate_ordered_preserves_duplicates client0 ext0 opRec6
    [.pyInt 5, .pyInt 6, .pyList [.pyInt 3, .pyInt 4, .pyInt 5]]
    (.cons rfl (.cons rfl (.cons rfl .nil)))).1

/-- Looking up the ctx key in a one-entry operation dictionary. -/
theorem ctx_lookup (items : PyObj) :
    dictGetStr [(.pyStr (strBytes "ctx"), items)] "ctx" = some items := rfl

/-- C8: a Python boolean is never converted to an Integer value by the write
path converters, even though booleans pass the integer checks: the boolean
branch runs first and routes the value through the policy-selected fallback
serializer, storing a Bytes value.  This holds for pyobject_to_val,
pyobject_to_astype_write and the bin dispatch of pyobject_to_record. -/
theorem c8_bool_never_integer (self : Client) (ext : ExtFns) :
    (∀ (b : Bool) (t : BytesType) (bs : List Nat), ext.ser (.pyBool b) = .ok (t, bs) →
        pyobject_to_val self ext (.pyBool b) = .ok (.bytes t bs) ∧
        pyobject_to_astype_write self ext (.pyBool b) = .ok (.bytes t bs) ∧
        record_bin_value self ext (.pyBool b) = .ok (.bytes t bs) ∧
        pyobject_to_record self ext (.pyDict [(.pyStr [98], .pyBool b)]) none =
          .ok ⟨emptyAKey, 0, 0, [([98], .bytes t bs)]⟩) ∧
    (∀ (b : Bool) (v : AsVal), pyobject_to_val self ext (.pyBool b) = .ok v →
        ∃ t bs, v = .bytes t bs) ∧
    (∀ (b : Bool) (v : AsVal), pyobject_to_astype_write self ext (.pyBool b) = .ok v →
        ∃ t bs, v = .bytes t bs) := by
  refine ⟨?_, ?_, ?_⟩
  · intro b t bs h
    have hname : bin_name_of self (.pyStr [98]) = .ok [98] := by
      have hc : cstr [98] = [98] := rfl
      simp [bin_name_of, hc]
    refine ⟨?_, ?_, ?_, ?_⟩
    · simp [pyobject_to_val, h]
    · simp [pyobject_to_astype_write, h]
    · simp [record_bin_value, h]
    · simp [pyobject_to_record, record_bins_go, hname, record_bin_value, h,
            record_meta, record_set_bin]
  · intro b v h
    simp only [pyobject_to_val] at h
    rcases hs : ext.ser (.pyBool b) with e | tb <;> rw [hs] at h <;> simp at h
    exact ⟨tb.1, tb.2, h.symm⟩
  · intro b v h
    simp only [pyobject_to_astype_write] at h
    rcases hs : ext.ser (.pyBool b) with e | tb <;> rw [hs] at h <;> simp at h
    exact ⟨tb.1, tb.2, h.symm⟩

/-- C8 witness: with a serializer that yields python-tagged bytes [7], a
boolean becomes exactly that Bytes value in pyobject_to_val and in a record
bin. -/
theorem c8_witness :
    pyobject_to_val client0 ext0 (.pyBool true) = .ok (.bytes .python [7]) ∧
    pyobject_to_record client0 ext0 (.pyDict [(.pyStr [98], .pyBool true)]) none =
      .ok ⟨emptyAKey, 0, 0, [([98], .bytes .python [7])]⟩ :=
  ⟨((c8_bool_never_integer client0 ext0).1 true .python [7] rfl).1,
   ((c8_bool_never_integer client0 ext0).1 true .python [7] rfl).2.2.2⟩

/-- Running get_cdt_ctx on a one-step context list reduces to the item
loop. -/
theorem get_cdt_ctx_single (self : Client) (ext : ExtFns) (x : PyObj) :
    get_cdt_ctx self ext [(.pyStr (strBytes "ctx"), .pyList [x])] =
      (fun steps => some steps) <$> get_cdt_ctx_items self ext [x] [] := rfl

/-- A one-item context list reduces to its single item step. -/
theorem items_single (self : Client) (ext : ExtFns) (idv valv : PyObj) :
    get_cdt_ctx_items self ext [.pyCtxWrapper idv valv] [] =
      (match ctx_item_step self ext idv valv with
      | .error e => .error e
      | .ok st => .ok [st]) := rfl

/-- Reduction of get_cdt_ctx on a one-step context list to the item step. -/
theorem get_cdt_ctx_one (self : Client) (ext : ExtFns) (idv valv : PyObj) :
    get_cdt_ctx self ext [(.pyStr (strBytes "ctx"), .pyList [.pyCtxWrapper idv valv])] =
      (match ctx_item_step self ext idv valv with
      | .error e => .error e
      | .ok st => .ok (some [st])) := by
  rw [get_cdt_ctx_single, items_single]
  rcases ctx_item_step self ext idv valv with e | st <;> rfl

/-- PyLong_AsUnsignedLong reads back any natural number below 2 to the 64. -/
theorem ctx_read_id (k : Nat) (hk64 : k < 18446744073709551616) :
    pyLongAsUnsignedLong (.pyInt (k : Int)) = some k := by
  have hknn : (0 : Int) ≤ (k : Int) := Int.natCast_nonneg k
  have hklt : (k : Int) < 18446744073709551616 := by exact_mod_cast hk64
  have hcond : (decide ((0 : Int) ≤ (k : Int)) &&
      decide ((k : Int) < 18446744073709551616)) = true := by
    rw [decide_eq_true hknn, decide_eq_true hklt]
    rfl
  show (if (decide ((0 : Int) ≤ (k : Int)) &&
        decide ((k : Int) < 18446744073709551616)) = true
      then some ((k : Int)).toNat else none) = some k
  rw [if_pos hcond, Int.toNat_natCast]

/-- An item whose id reads as kind k is processed by the known-kind dispatch. -/
theorem ctx_step_known (self : Client) (ext : ExtFns) (idv : PyObj) (k : Nat)
    (valv : PyObj) (hid : pyLongAsUnsignedLong idv = some k) :
    ctx_item_step self ext idv valv = ctx_item_known self ext k valv := by
  unfold ctx_item_step
  rw [hid]

/-- A requires-integer kind takes the integer branch. -/
theorem ctx_known_int (self : Client) (ext : ExtFns) (k : Nat) (valv : PyObj)
    (h : requires_int k = true) :
    ctx_item_known self ext k valv = ctx_item_int k valv := by
  unfold ctx_item_known
  rw [h]
  rfl

/-- A kind that does not require an integer takes the value branch. -/
theorem ctx_known_value (self : Client) (ext : ExtFns) (k : Nat) (valv : PyObj)
    (h : requires_int k = false) :
    ctx_item_known self ext k valv = ctx_item_value self ext k valv := by
  unfold ctx_item_known
  rw [h]
  rfl

/-- A payload PyLong_AsLong cannot read fails the integer branch. -/
theorem ctx_int_none (k : Nat) (valv : PyObj) (hp : pyLongAsLong valv = none) :
    ctx_item_int k valv = .error (⟨.param, "Failed to convert ctx"⟩, true) := by
  unfold ctx_item_int
  rw [hp]

/-- A failing generic conversion fails the value branch without destroying the
context. -/
theorem ctx_value_err (self : Client) (ext : ExtFns) (k : Nat) (valv : PyObj) (e : Err)
    (hv : pyobject_to_val self ext valv = .error e) :
    ctx_item_value self ext k valv = .error (⟨.param, "Failed to convert ctx"⟩, false) := by
  unfold ctx_item_value
  rw [hv]

/-- A successful generic conversion dispatches on the value kind. -/
theorem ctx_value_ok (self : Client) (ext : ExtFns) (k : Nat) (valv : PyObj) (v : AsVal)
    (hv : pyobject_to_val self ext valv = .ok v) :
    ctx_item_value self ext k valv = ctx_item_value_pick k v := by
  unfold ctx_item_value
  rw [hv]

/-- The value-kind switch rejects a kind that is none of the three value
kinds. -/
theorem ctx_pick_unknown (k : Nat) (v : AsVal)
    (hb1 : (k == AS_CDT_CTX_LIST_VALUE) = false)
    (hb2 : (k == AS_CDT_CTX_MAP_KEY) = false)
    (hb3 : (k == AS_CDT_CTX_MAP_VALUE) = false) :
    ctx_item_value_pick k v =
      .error (⟨.param, "Failed to convert, unknown ctx operation ctx"⟩, true) := by
  unfold ctx_item_value_pick
  rw [hb1, hb2, hb3]
  rfl

/-- For each of the four requires-integer kinds, a payload that
PyLong_AsLong cannot read as an integer is rejected with InvalidParam. -/
theorem ctx_requires_int_rejects (self : Client) (ext : ExtFns) :
    ∀ (k : Nat) (payload : PyObj),
      (k = AS_CDT_CTX_LIST_INDEX ∨ k = AS_CDT_CTX_LIST_RANK ∨
       k = AS_CDT_CTX_MAP_INDEX ∨ k = AS_CDT_CTX_MAP_RANK) →
      pyLongAsLong payload = none →
      get_cdt_ctx self ext
        [(.pyStr (strBytes "ctx"), .pyList [.pyCtxWrapper (.pyInt (k : Int)) payload])] =
        .error (⟨.param, "Failed to convert ctx"⟩, true) := by
  intro k payload hk hp
  have hlt : k < 18446744073709551616 := by
    rcases hk with rfl | rfl | rfl | rfl <;> decide
  have hreq : requires_int k = true := by
    rcases hk with rfl | rfl | rfl | rfl <;> decide
  rw [get_cdt_ctx_one,
    ctx_step_known self ext (.pyInt (k : Int)) k payload (ctx_read_id k hlt),
    ctx_known_int self ext k payload hreq, ctx_int_none k payload hp]

/-- For each of the three value kinds, an in-range integer payload is accepted
and converted as a generic Value. -/
theorem ctx_value_kinds_accept_int (self : Client) (ext : ExtFns) :
    ∀ n : Int, fitsInt64 n = true →
      get_cdt_ctx self ext
        [(.pyStr (strBytes "ctx"),
          .pyList [.pyCtxWrapper (.pyInt (AS_CDT_CTX_LIST_VALUE : Int)) (.pyInt n)])] =
        .ok (some [.listValue (.integer n)]) ∧
      get_cdt_ctx self ext
        [(.pyStr (strBytes "ctx"),
          .pyList [.pyCtxWrapper (.pyInt (AS_CDT_CTX_MAP_KEY : Int)) (.pyInt n)])] =
        .ok (some [.mapKey (.integer n)]) ∧
      get_cdt_ctx self ext
        [(.pyStr (strBytes "ctx"),
          .pyList [.pyCtxWrapper (.pyInt (AS_CDT_CTX_MAP_VALUE : Int)) (.pyInt n)])] =
        .ok (some [.mapValue (.integer n)]) := by
  intro n hn
  have hv : pyobject_to_val self ext (.pyInt n) = .ok (.integer n) := by
    simp [pyobject_to_val, hn]
  refine ⟨?_, ?_, ?_⟩
  · rw [get_cdt_ctx_one,
      ctx_step_known self ext (.pyInt (AS_CDT_CTX_LIST_VALUE : Int))
        AS_CDT_CTX_LIST_VALUE (.pyInt n) (ctx_read_id AS_CDT_CTX_LIST_VALUE (by decide)),
      ctx_known_value self ext AS_CDT_CTX_LIST_VALUE (.pyInt n) (by decide),
      ctx_value_ok self ext AS_CDT_CTX_LIST_VALUE (.pyInt n) (.integer n) hv]
    rfl
  · rw [get_cdt_ctx_one,
      ctx_step_known self ext (.pyInt (AS_CDT_CTX_MAP_KEY : Int))
        AS_CDT_CTX_MAP_KEY (.pyInt n) (ctx_read_id AS_CDT_CTX_MAP_KEY (by decide)),
      ctx_known_value self ext AS_CDT_CTX_MAP_KEY (.pyInt n) (by decide),
      ctx_value_ok self ext AS_CDT_CTX_MAP_KEY (.pyInt n) (.integer n) hv]
    rfl
  · rw [get_cdt_ctx_one,
      ctx_step_known self ext (.pyInt (AS_CDT_CTX_MAP_VALUE : Int))
        AS_CDT_CTX_MAP_VALUE (.pyInt n) (ctx_read_id AS_CDT_CTX_MAP_VALUE (by decide)),
      ctx_known_value self ext AS_CDT_CTX_MAP_VALUE (.pyInt n) (by decide),
      ctx_value_ok self ext AS_CDT_CTX_MAP_VALUE (.pyInt n) (.integer n) hv]
    rfl

/-- A kind that is none of the seven known context kinds is rejected with
InvalidParam whatever the payload. -/
theorem ctx_unknown_kind_rejected (self : Client) (ext : ExtFns) :
    ∀ (k : Nat) (payload : PyObj), k < 18446744073709551616 →
      requires_int k = false → k ≠ AS_CDT_CTX_LIST_VALUE → k ≠ AS_CDT_CTX_MAP_KEY →
      k ≠ AS_CDT_CTX_MAP_VALUE →
      ∃ msg rel, get_cdt_ctx self ext
        [(.pyStr (strBytes "ctx"), .pyList [.pyCtxWrapper (.pyInt (k : Int)) payload])] =
        .error (⟨.param, msg⟩, rel) := by
  intro k payload hk64 hreq h1 h2 h3
  have hb1 : (k == AS_CDT_CTX_LIST_VALUE) = false := by
    simp only [AS_CDT_CTX_LIST_VALUE] at h1 ⊢
    simp [h1]
  have hb2 : (k == AS_CDT_CTX_MAP_KEY) = false := by
    simp only [AS_CDT_CTX_MAP_KEY] at h2 ⊢
    simp [h2]
  have hb3 : (k == AS_CDT_CTX_MAP_VALUE) = false := by
    simp only [AS_CDT_CTX_MAP_VALUE] at h3 ⊢
    simp [h3]
  rcases hval : pyobject_to_val self ext payload with e | v
  · refine ⟨"Failed to convert ctx", false, ?_⟩
    rw [get_cdt_ctx_one,
      ctx_step_known self ext (.pyInt (k : Int)) k payload (ctx_read_id k hk64),
      ctx_known_value self ext k payload hreq,
      ctx_value_err self ext k payload e hval]
  · refine ⟨"Failed to convert, unknown ctx operation ctx", true, ?_⟩
    rw [get_cdt_ctx_one,
      ctx_step_known self ext (.pyInt (k : Int)) k payload (ctx_read_id k hk64),
      ctx_known_value self ext k payload hreq,
      ctx_value_ok self ext k payload v hval,
      ctx_pick_unknown k v hb1 hb2 hb3]

/-- C7: for the four requires-integer context kinds a non-integer payload is
rejected with InvalidParam; for the three value kinds an integer payload in
the signed 64-bit range is accepted as a generic Value; an unrecognized kind
is rejected with InvalidParam whatever the payload. -/
theorem c7_ctx_kind_enforcement (self : Client) (ext : ExtFns) :
    (∀ (k : Nat) (payload : PyObj),
        (k = AS_CDT_CTX_LIST_INDEX ∨ k = AS_CDT_CTX_LIST_RANK ∨
         k = AS_CDT_CTX_MAP_INDEX ∨ k = AS_CDT_CTX_MAP_RANK) →
        pyLongAsLong payload = none →
        get_cdt_ctx self ext
          [(.pyStr (strBytes "ctx"), .pyList [.pyCtxWrapper (.pyInt (k : Int)) payload])] =
          .error (⟨.param, "Failed to convert ctx"⟩, true)) ∧
    (∀ n : Int, fitsInt64 n = true →
        get_cdt_ctx self ext
          [(.pyStr (strBytes "ctx"),
            .pyList [.pyCtxWrapper (.pyInt (AS_CDT_CTX_LIST_VALUE : Int)) (.pyInt n)])] =
          .ok (some [.listValue (.integer n)]) ∧
        get_cdt_ctx self ext
          [(.pyStr (strBytes "ctx"),
            .pyList [.pyCtxWrapper (.pyInt (AS_CDT_CTX_MAP_KEY : Int)) (.pyInt n)])] =
          .ok (some [.mapKey (.integer n)]) ∧
        get_cdt_ctx self ext
          [(.pyStr (strBytes "ctx"),
            .pyList [.pyCtxWrapper (.pyInt (AS_CDT_CTX_MAP_VALUE : Int)) (.pyInt n)])] =
          .ok (some [.mapValue (.integer n)])) ∧
    (∀ (k : Nat) (payload : PyObj), k < 18446744073709551616 →
        requires_int k = false → k ≠ AS_CDT_CTX_LIST_VALUE → k ≠ AS_CDT_CTX_MAP_KEY →
        k ≠ AS_CDT_CTX_MAP_VALUE →
        ∃ msg rel, get_cdt_ctx self ext
          [(.pyStr (strBytes "ctx"), .pyList [.pyCtxWrapper (.pyInt (k : Int)) payload])] =
          .error (⟨.param, msg⟩, rel)) :=
  ⟨ctx_requires_int_rejects self ext, ctx_value_kinds_accept_int self ext,
   ctx_unknown_kind_rejected self ext⟩

/-- C7 witness: a string payload for a list-index step is rejected; the value
5 is accepted for a map-key step; kind 3 with a None payload is rejected as
unknown. -/
theorem c7_witness :
    get_cdt_ctx client0 ext0
      [(.pyStr (strBytes "ctx"),
        .pyList [.pyCtxWrapper (.pyInt (AS_CDT_CTX_LIST_INDEX : Int)) (.pyStr [97])])] =
      .error (⟨.param, "Failed to convert ctx"⟩, true) ∧
    get_cdt_ctx client0 ext0
      [(.pyStr (strBytes "ctx"),
        .pyList [.pyCtxWrapper (.pyInt (AS_CDT_CTX_MAP_KEY : Int)) (.pyInt 5)])] =
      .ok (some [.mapKey (.integer 5)]) ∧
    (∃ msg rel, get_cdt_ctx client0 ext0
      [(.pyStr (strBytes "ctx"), .pyList [.pyCtxWrapper (.pyInt 3) (.pyNone)])] =
      .error (⟨.param, msg⟩, rel)) :=
  ⟨(c7_ctx_kind_enforcement client0 ext0).1 AS_CDT_CTX_LIST_INDEX (.pyStr [97])
     (Or.inl rfl) rfl,
   ((c7_ctx_kind_enforcement client0 ext0).2.1 5 rfl).2.1,
   (c7_ctx_kind_enforcement client0 ext0).2.2 3 .pyNone (by decide) rfl
     (by decide) (by decide) (by decide)⟩

/-- C9: metadata must be a dictionary; a non-integer ttl or gen entry is an
InvalidParam; an integer whose absolute value exceeds the signed 64-bit range
is flagged as an overflow InvalidParam; any other integer is stored after a
silent cast, reduced modulo 2 to the 32 for ttl and modulo 2 to the 16 for
gen. -/
theorem c9_meta_validation :
    (∀ (x : PyObj) (t0 g0 : Nat), (∀ m, x ≠ .pyDict m) → x ≠ .pyNone →
        check_for_meta (some x) (t0, g0) =
          .error ⟨.param, "Metadata should be of type dictionary"⟩ ∧
        record_meta (some x) = (some ⟨.param, "meta must be a dictionary"⟩, 0, 0)) ∧
    (∀ (m : List (PyObj × PyObj)) (t : PyObj) (t0 g0 : Nat),
        dictGetStr m "ttl" = some t → pyIntCheck t = false →
        check_for_meta (some (.pyDict m)) (t0, g0) =
          .error ⟨.param, "Ttl should be an int or long"⟩) ∧
    (∀ (m : List (PyObj × PyObj)) (t : PyObj) (t0 g0 : Nat),
        dictGetStr m "ttl" = some t → pyIntCheck t = true →
        fitsInt64 (pyIntValue t) = false →
        check_for_meta (some (.pyDict m)) (t0, g0) =
          .error ⟨.param, "integer value for ttl exceeds sys.maxsize"⟩) ∧
    (∀ (m : List (PyObj × PyObj)) (t : PyObj) (t0 g0 : Nat),
        dictGetStr m "ttl" = some t → dictGetStr m "gen" = none →
        pyIntCheck t = true → fitsInt64 (pyIntValue t) = true →
        check_for_meta (some (.pyDict m)) (t0, g0) = .ok (truncU32 (pyIntValue t), g0)) ∧
    (∀ (m : List (PyObj × PyObj)) (g : PyObj) (t0 g0 : Nat),
        dictGetStr m "ttl" = none → dictGetStr m "gen" = some g →
        pyIntCheck g = false →
        check_for_meta (some (.pyDict m)) (t0, g0) =
          .error ⟨.param, "Generation should be an int or long"⟩) ∧
    (∀ (m : List (PyObj × PyObj)) (g : PyObj) (t0 g0 : Nat),
        dictGetStr m "ttl" = none → dictGetStr m "gen" = some g →
        pyIntCheck g = true → fitsInt64 (pyIntValue g) = true →
        check_for_meta (some (.pyDict m)) (t0, g0) = .ok (t0, truncU16 (pyIntValue g))) := by
  refine ⟨?_, ?_, ?_, ?_, ?_, ?_⟩
  · intro x t0 g0 h1 h2
    cases x
    all_goals first
      | exact absurd rfl (h1 _)
      | exact absurd rfl h2
      | exact ⟨rfl, rfl⟩
  · intro m t t0 g0 ht hint
    simp [check_for_meta, checkMetaTtl, ht, hint]
  · intro m t t0 g0 ht hint hfit
    simp [check_for_meta, checkMetaTtl, ht, hint, hfit]
  · intro m t t0 g0 ht hg hint hfit
    simp [check_for_meta, checkMetaTtl, checkMetaGen, ht, hg, hint, hfit]
  · intro m g t0 g0 ht hg hint
    simp [check_for_meta, checkMetaTtl, checkMetaGen, ht, hg, hint]
  · intro m g t0 g0 ht hg hint hfit
    simp [check_for_meta, checkMetaTtl, checkMetaGen, ht, hg, hint, hfit]

/-- C9 witness: a list is not a dictionary; a ttl of 2 to the 32 plus 5 is
stored as 5; a string gen is rejected. -/
theorem c9_witness :
    (check_for_meta (some (.pyList [])) (1, 2) =
        .error ⟨.param, "Metadata should be of type dictionary"⟩ ∧
      record_meta (some (.pyList [])) = (some ⟨.param, "meta must be a dictionary"⟩, 0, 0)) ∧
    check_for_meta (some (.pyDict [(.pyStr (strBytes "ttl"), .pyInt 4294967301)])) (1, 2) =
      .ok (5, 2) ∧
    check_for_meta (some (.pyDict [(.pyStr (strBytes "gen"), .pyStr [97])])) (1, 2) =
      .error ⟨.param, "Generation should be an int or long"⟩ :=
  ⟨c9_meta_validation.1 (.pyList []) 1 2 (fun m h => by cases h) (by decide),
   by
    have h := c9_meta_validation.2.2.2.1 [(.pyStr (strBytes "ttl"), .pyInt 4294967301)]
      (.pyInt 4294967301) 1 2 (by decide) (by decide) (by decide) (by decide)
    rw [h]
    rfl,
   c9_meta_validation.2.2.2.2.1 [(.pyStr (strBytes "gen"), .pyStr [97])] (.pyStr [97]) 1 2
     (by decide) (by decide) (by decide)⟩

/-- The per-entry contract of batch externalization: an entry whose outcome was
OK yields the externalized (key, meta, bins) tuple of its record; any other
entry yields (key, None, None). -/
def batch_tuple_ok (self : Client) (ext : ExtFns) (r : BatchRead) (t : PyObj) : Prop :=
  if r.resultOk then record_to_pyobject self ext r.record (some r.key) = .ok t
  else t = .pyTuple [key_to_pyobject r.key, .pyNone, .pyNone]

/-- Shape of a successful as_batch_read_results_to_pyobject run: one tuple per
entry, related entrywise by batch_tuple_ok. -/
theorem batch1_shape (self : Client) (ext : ExtFns) :
    ∀ (entries : List BatchRead) (ts : List PyObj),
      as_batch_read_results_to_pyobject self ext entries = .ok ts →
      List.Forall₂ (batch_tuple_ok self ext) entries ts := by
  intro entries
  induction entries with
  | nil =>
      intro ts h
      simp only [as_batch_read_results_to_pyobject] at h
      injection h with h2
      subst h2
      exact List.Forall₂.nil
  | cons r rest ih =>
      intro ts h
      simp only [as_batch_read_results_to_pyobject] at h
      by_cases hr : r.resultOk
      · rw [if_pos hr] at h
        rcases hrec : record_to_pyobject self ext r.record (some r.key) with e | t
        · rw [hrec, except_bind_error] at h
          exact absurd h (by simp)
        · rw [hrec, except_bind_ok] at h
          rcases hrest : as_batch_read_results_to_pyobject self ext rest with e2 | ts0
          · rw [hrest, except_bind_error] at h
            exact absurd h (by simp)
          · rw [hrest, except_bind_ok] at h
            injection h with h2
            subst h2
            exact List.Forall₂.cons (by simp [batch_tuple_ok, hr, hrec]) (ih ts0 hrest)
      · rw [if_neg hr] at h
        rcases hrest : as_batch_read_results_to_pyobject self ext rest with e2 | ts0
        · rw [hrest, except_bind_error] at h
          exact absurd h (by simp)
        · rw [hrest, except_bind_ok] at h
          injection h with h2
          subst h2
          exact List.Forall₂.cons (by simp [batch_tuple_ok, hr]) (ih ts0 hrest)

/-- Shape of a successful batch_read_records_to_pyobject run: identical to
batch1_shape over the as_batch_read_records vector. -/
theorem batch2_shape (self : Client) (ext : ExtFns) :
    ∀ (entries : List BatchRead) (ts : List PyObj),
      batch_read_records_to_pyobject self ext entries = .ok ts →
      List.Forall₂ (batch_tuple_ok self ext) entries ts := by
  intro entries
  induction entries with
  | nil =>
      intro ts h
      simp only [batch_read_records_to_pyobject] at h
      injection h with h2
      subst h2
      exact List.Forall₂.nil
  | cons r rest ih =>
      intro ts h
      simp only [batch_read_records_to_pyobject] at h
      by_cases hr : r.resultOk
      · rw [if_pos hr] at h
        rcases hrec : record_to_pyobject self ext r.record (some r.key) with e | t
        · rw [hrec, except_bind_error] at h
          exact absurd h (by simp)
        · rw [hrec, except_bind_ok] at h
          rcases hrest : batch_read_records_to_pyobject self ext rest with e2 | ts0
          · rw [hrest, except_bind_error] at h
            exact absurd h (by simp)
          · rw [hrest, except_bind_ok] at h
            injection h with h2
            subst h2
            exact List.Forall₂.cons (by simp [batch_tuple_ok, hr, hrec]) (ih ts0 hrest)
      · rw [if_neg hr] at h
        rcases hrest : batch_read_records_to_pyobject self ext rest with e2 | ts0
        · rw [hrest, except_bind_error] at h
          exact absurd h (by simp)
        · rw [hrest, except_bind_ok] at h
          injection h with h2
          subst h2
          exact List.Forall₂.cons (by simp [batch_tuple_ok, hr]) (ih ts0 hrest)

/-- C4: whenever either batch externalization returns a list, that list holds
exactly one 3-tuple per input entry, entrywise (key, meta, bins) for an OK
entry and (key, None, None) otherwise; in particular the lengths agree.  (The
converse situation, a single failing record conversion aborting the whole
batch instead of being skipped, is the counterexample.) -/
theorem c4_batch_one_tuple_per_entry (self : Client) (ext : ExtFns) :
    ∀ (entries : List BatchRead) (ts : List PyObj),
      (as_batch_read_results_to_pyobject self ext entries = .ok ts ∨
       batch_read_records_to_pyobject self ext entries = .ok ts) →
      List.Forall₂ (batch_tuple_ok self ext) entries ts ∧ ts.length = entries.length := by
  intro entries ts h
  rcases h with h | h
  · exact ⟨batch1_shape self ext entries ts h,
      (List.Forall₂.length_eq (batch1_shape self ext entries ts h)).symm⟩
  · exact ⟨batch2_shape self ext entries ts h,
      (List.Forall₂.length_eq (batch2_shape self ext entries ts h)).symm⟩

/-- C4 witness: a two-entry batch, one OK entry with one integer bin and one
failed entry, externalizes to exactly two tuples of the stated shapes. -/
theorem c4_witness :
    List.Forall₂ (batch_tuple_ok client0 ext0)
      [⟨⟨[110], [115], none, false, []⟩, true, ⟨emptyAKey, 3, 0, [([98], .integer 5)]⟩⟩,
       ⟨⟨[109], [], none, false, []⟩, false, ⟨emptyAKey, 0, 0, []⟩⟩]
      [.pyTuple [key_to_pyobject ⟨[110], [115], none, false, []⟩,
                 .pyDict [(.pyStr (strBytes "ttl"), .pyInt 0),
                          (.pyStr (strBytes "gen"), .pyInt 3)],
                 .pyDict [(.pyStr [98], .pyInt 5)]],
       .pyTuple [key_to_pyobject ⟨[109], [], none, false, []⟩, .pyNone, .pyNone]] ∧
    (2 : Nat) = 2 :=
  c4_batch_one_tuple_per_entry client0 ext0
    [⟨⟨[110], [115], none, false, []⟩, true, ⟨emptyAKey, 3, 0, [([98], .integer 5)]⟩⟩,
     ⟨⟨[109], [], none, false, []⟩, false, ⟨emptyAKey, 0, 0, []⟩⟩]
    [.pyTuple [key_to_pyobject ⟨[110], [115], none, false, []⟩,
               .pyDict [(.pyStr (strBytes "ttl"), .pyInt 0),
                        (.pyStr (strBytes "gen"), .pyInt 3)],
               .pyDict [(.pyStr [98], .pyInt 5)]],
     .pyTuple [key_to_pyobject ⟨[109], [], none, false, []⟩, .pyNone, .pyNone]]
    (Or.inl (by decide))

/-- Spec reading of the namespace rule: the namespace field must be present and
must be a byte string (no emptiness check is performed). -/
def ns_ok_spec : Option PyObj → Bool
  | some (.pyStr _) => true
  | _ => false

/-- Spec reading of the set rule: absent, None, byte string or unicode
string. -/
def set_ok_spec : Option PyObj → Bool
  | none => true
  | some .pyNone => true
  | some (.pyStr _) => true
  | some (.pyUni _) => true
  | _ => false

/-- Spec reading of an acceptable user key: text, bytes, a bool, an integer in
the signed 64-bit range, or a non-empty bytearray. -/
def user_key_ok_spec : PyObj → Bool
  | .pyUni _ => true
  | .pyStr _ => true
  | .pyBool _ => true
  | .pyInt n => fitsInt64 n
  | .pyByteArray b => b.length != 0
  | .pyBytes _ => true
  | _ => false

/-- Spec reading of an acceptable digest: a bytearray of exactly 20 bytes. -/
def digest_ok_spec : PyObj → Bool
  | .pyByteArray b => b.length == 20
  | _ => false

/-- Spec reading of the accepted input shapes: a positional tuple of length 3
or 4, or a mapping with ns, set, key and digest entries. -/
def key_fields_spec : PyObj → Option (Option PyObj × Option PyObj × Option PyObj × Option PyObj)
  | .pyTuple xs =>
      if xs.length == 3 || xs.length == 4 then some (xs[0]?, xs[1]?, xs[2]?, xs[3]?)
      else none
  | .pyDict es =>
      some (dictGetStr es "ns", dictGetStr es "set", dictGetStr es "key", dictGetStr es "digest")
  | _ => none

/-- Spec reading of key acceptance over the extracted fields: valid namespace
and set, and then a non-None user key that is acceptable, or failing that a
non-None digest that is acceptable. -/
def key_accept_fields (f : Option PyObj × Option PyObj × Option PyObj × Option PyObj) : Bool :=
  ns_ok_spec f.1 && set_ok_spec f.2.1 &&
  (match pickNonNone f.2.2.1 with
   | some k => user_key_ok_spec k
   | none =>
     match pickNonNone f.2.2.2 with
     | some d => digest_ok_spec d
     | none => false)

/-- Spec reading of key acceptance: a recognized shape whose fields are
accepted. -/
def key_spec_accepts (x : PyObj) : Bool :=
  match key_fields_spec x with
  | some f => key_accept_fields f
  | none => false

theorem parse_key_ns_isOk (o : Option PyObj) : (parse_key_ns o).isOk = ns_ok_spec o := by
  rcases o with _ | x
  · rfl
  · cases x <;> rfl

theorem parse_key_set_isOk (o : Option PyObj) : (parse_key_set o).isOk = set_ok_spec o := by
  rcases o with _ | x
  · rfl
  · cases x <;> rfl

theorem parse_user_key_isOk (k : PyObj) : (parse_user_key k).isOk = user_key_ok_spec k := by
  cases k
  case pyInt n =>
    cases hf : fitsInt64 n <;>
      simp [parse_user_key, user_key_ok_spec, hf, Except.isOk, Except.toBool]
  case pyByteArray b =>
    cases hl : (b.length == 0) <;>
      simp [parse_user_key, user_key_ok_spec, hl, Except.isOk, Except.toBool, bne]
  all_goals rfl

theorem parse_digest_isOk (d : PyObj) : (parse_digest d).isOk = digest_ok_spec d := by
  cases d
  case pyByteArray b =>
    cases hl : (b.length == 20) <;>
      simp [parse_digest, digest_ok_spec, hl, Except.isOk, Except.toBool]
  all_goals rfl

theorem key_from_fields_isOk (f : Option PyObj × Option PyObj × Option PyObj × Option PyObj) :
    (key_from_fields f).isOk = key_accept_fields f := by
  obtain ⟨nsF, setF, keyF, digF⟩ := f
  unfold key_from_fields key_accept_fields
  dsimp only
  rcases hns : parse_key_ns nsF with e | ns
  · have hspec : ns_ok_spec nsF = false := by rw [← parse_key_ns_isOk, hns]; rfl
    rw [except_bind_error, hspec]
    rfl
  · have hspec : ns_ok_spec nsF = true := by rw [← parse_key_ns_isOk, hns]; rfl
    rw [except_bind_ok, hspec, Bool.true_and]
    rcases hset : parse_key_set setF with e | st
    · have hs2 : set_ok_spec setF = false := by rw [← parse_key_set_isOk, hset]; rfl
      rw [except_bind_error, hs2]
      rfl
    · have hs2 : set_ok_spec setF = true := by rw [← parse_key_set_isOk, hset]; rfl
      rw [except_bind_ok, hs2, Bool.true_and]
      rcases hk : pickNonNone keyF with _ | k
      · rcases hd : pickNonNone digF with _ | d
        · rfl
        · rcases hdig : parse_digest d with e | loc
          · have h3 : digest_ok_spec d = false := by rw [← parse_digest_isOk, hdig]; rfl
            dsimp only
            rw [hdig, except_bind_error, h3]
            rfl
          · have h3 : digest_ok_spec d = true := by rw [← parse_digest_isOk, hdig]; rfl
            dsimp only
            rw [hdig, except_bind_ok, h3]
            rfl
      · rcases huk : parse_user_key k with e | loc
        · have h3 : user_key_ok_spec k = false := by rw [← parse_user_key_isOk, huk]; rfl
          dsimp only
          rw [huk, except_bind_error, h3]
          rfl
        · have h3 : user_key_ok_spec k = true := by rw [← parse_user_key_isOk, huk]; rfl
          dsimp only
          rw [huk, except_bind_ok, h3]
          rfl

theorem pyobject_to_key_isOk (x : PyObj) : (pyobject_to_key x).isOk = key_spec_accepts x := by
  unfold pyobject_to_key key_spec_accepts
  cases x
  case pyTuple xs =>
    simp only [key_fields, key_fields_spec]
    by_cases h : xs.length < 3 ∨ 4 < xs.length
    · have hc : (decide (xs.length < 3) || decide (4 < xs.length)) = true := by
        rcases h with h | h <;> simp [h]
      have hs : (xs.length == 3 || xs.length == 4) = false := by
        simp only [Bool.or_eq_false_iff, beq_eq_false_iff_ne]
        omega
      rw [if_pos hc, hs]
      rfl
    · push_neg at h
      have hc : (decide (xs.length < 3) || decide (4 < xs.length)) = false := by
        simp only [Bool.or_eq_false_iff, decide_eq_false_iff_not]
        omega
      have hs : (xs.length == 3 || xs.length == 4) = true := by
        have h4 : xs.length = 3 ∨ xs.length = 4 := by omega
        rcases h4 with h4 | h4 <;> simp [h4]
      rw [hc, hs]
      exact key_from_fields_isOk (xs[0]?, xs[1]?, xs[2]?, xs[3]?)
  case pyDict es =>
    exact key_from_fields_isOk
      (dictGetStr es "ns", dictGetStr es "set", dictGetStr es "key", dictGetStr es "digest")
  all_goals rfl

theorem pickNonNone_some (k : PyObj) (h : k ≠ .pyNone) : pickNonNone (some k) = some k := by
  cases k
  all_goals first
    | exact absurd rfl h
    | rfl

theorem key_digest_length_error (ns d : List Nat) (hlen : d.length ≠ 20) :
    pyobject_to_key (.pyTuple [.pyStr ns, .pyNone, .pyNone, .pyByteArray d]) =
      .error ⟨.param,
        "digest size is invalid. should be 20 bytes, but received " ++ toString d.length⟩ := by
  have h20 : (d.length == 20) = false := by simp [hlen]
  simp [pyobject_to_key, key_fields, key_from_fields, parse_key_ns, parse_key_set,
    pickNonNone, parse_digest, h20, hlen]

theorem key_user_key_precedence (ns : List Nat) (sv k dg : PyObj) (hk : k ≠ .pyNone) :
    pyobject_to_key (.pyTuple [.pyStr ns, sv, k, dg]) =
      pyobject_to_key (.pyTuple [.pyStr ns, sv, k]) := by
  simp [pyobject_to_key, key_fields, key_from_fields, pickNonNone_some k hk]

/-- C2: pyobject_to_key accepts exactly the inputs of a recognized shape whose
namespace is a byte string (possibly empty), whose set is absent, None or
text, and which carry an acceptable non-None user key, or else an acceptable
non-None digest; a digest whose length is not 20 fails with the received
length echoed in the message when no user key is present; and a present
user key makes the digest field entirely irrelevant. -/
theorem c2_key_acceptance :
    (∀ x : PyObj, (pyobject_to_key x).isOk = key_spec_accepts x) ∧
    (∀ ns d : List Nat, d.length ≠ 20 →
      pyobject_to_key (.pyTuple [.pyStr ns, .pyNone, .pyNone, .pyByteArray d]) =
        .error ⟨.param,
          "digest size is invalid. should be 20 bytes, but received " ++ toString d.length⟩) ∧
    (∀ (ns : List Nat) (sv k dg : PyObj), k ≠ .pyNone →
      pyobject_to_key (.pyTuple [.pyStr ns, sv, k, dg]) =
        pyobject_to_key (.pyTuple [.pyStr ns, sv, k])) :=
  ⟨pyobject_to_key_isOk, key_digest_length_error, key_user_key_precedence⟩

/-- C2 witness: acceptance of a concrete valid tuple matches the spec
predicate; a 2-byte digest is rejected with the length 2 in the message; a
bad digest next to a valid user key does not change the result. -/
theorem c2_witness :
    (pyobject_to_key (.pyTuple [.pyStr [110], .pyNone, .pyInt 7])).isOk =
      key_spec_accepts (.pyTuple [.pyStr [110], .pyNone, .pyInt 7]) ∧
    pyobject_to_key (.pyTuple [.pyStr [110], .pyNone, .pyNone, .pyByteArray [1, 2]]) =
      .error ⟨.param, "digest size is invalid. should be 20 bytes, but received 2"⟩ ∧
    pyobject_to_key (.pyTuple [.pyStr [110], .pyNone, .pyInt 7, .pyByteArray [9]]) =
      pyobject_to_key (.pyTuple [.pyStr [110], .pyNone, .pyInt 7]) :=
  ⟨c2_key_acceptance.1 (.pyTuple [.pyStr [110], .pyNone, .pyInt 7]),
   c2_key_acceptance.2.1 [110] [1, 2] (by decide),
   c2_key_acceptance.2.2 [110] .pyNone (.pyInt 7) (.pyByteArray [9]) (by decide)⟩

/-- Keys of a dictionary are pairwise distinct, as Python dictionaries
guarantee for the inputs reaching pyobject_to_map. -/
def keysDistinctB : List (PyObj × PyObj) → Bool
  | [] => true
  | (k, _) :: rest => !(rest.any (fun p => p.1 == k)) && keysDistinctB rest

mutual
/-- Spec reading of a representable value for the roundtrip property: a signed
64-bit integer, a double, a NUL-free byte string, raw bytes, or a list or
dictionary nested from these, a dictionary further carrying hashable pairwise
distinct keys. -/
def representable : PyObj → Bool
  | .pyInt n => fitsInt64 n
  | .pyFloat _ => true
  | .pyStr s => s.all (fun b => b != 0)
  | .pyBytes _ => true
  | .pyList xs => representableList xs
  | .pyDict es =>
      representablePairs es && es.all (fun p => pyHashable p.1) && keysDistinctB es
  | _ => false

/-- Every element of the list is representable. -/
def representableList : List PyObj → Bool
  | [] => true
  | x :: xs => representable x && representableList xs

/-- Every key and value of the entry list is representable. -/
def representablePairs : List (PyObj × PyObj) → Bool
  | [] => true
  | (k, v) :: rest => representable k && representable v && representablePairs rest
end

/-- The per-entry roundtrip contract for one dictionary entry and its converted
pair: key and value each convert forward to the pair's components and read back
to the originals. -/
def RTentry (self : Client) (ext : ExtFns) (e : PyObj × PyObj) (p : AsVal × AsVal) : Prop :=
  pyobject_to_val self ext e.1 = .ok p.1 ∧ val_to_pyobject self ext p.1 = .ok e.1 ∧
  pyobject_to_val self ext e.2 = .ok p.2 ∧ val_to_pyobject self ext p.2 = .ok e.2

/-- A NUL-free byte string survives the C-string truncation unchanged. -/
theorem cstr_of_no_nul : ∀ s : List Nat, s.all (fun b => b != 0) = true → cstr s = s := by
  intro s
  unfold cstr
  induction s with
  | nil => intro h; rfl
  | cons a t ih =>
      intro h
      simp only [List.all_cons, Bool.and_eq_true] at h
      simp only [List.takeWhile_cons, h.1, if_true]
      rw [ih h.2]

/-- Elementwise origin of a right member of a Forall₂ relation. -/
theorem forall2_mem_right {α β : Type} {R : α → β → Prop} :
    ∀ {l1 : List α} {l2 : List β}, List.Forall₂ R l1 l2 →
      ∀ b ∈ l2, ∃ a ∈ l1, R a b := by
  intro l1 l2 hf
  induction hf with
  | nil => intro b hb; cases hb
  | cons hr htail ih =>
      intro b hb
      rcases List.mem_cons.mp hb with hb | hb
      · subst hb
        exact ⟨_, List.mem_cons_self _ _, hr⟩
      · obtain ⟨a, ha, hra⟩ := ih b hb
        exact ⟨a, List.mem_cons_of_mem _ ha, hra⟩

/-- Write side of the dictionary roundtrip: with entrywise-roundtripping
conversions, pairwise distinct original keys and an accumulator whose keys
avoid the converted keys, the as_map_set loop appends the converted pairs in
order. -/
theorem map_write_go (self : Client) (ext : ExtFns) :
    ∀ (es : List (PyObj × PyObj)) (ps m : List (AsVal × AsVal)),
      List.Forall₂ (RTentry self ext) es ps →
      keysDistinctB es = true →
      (∀ q ∈ m, ∀ p ∈ ps, q.1 ≠ p.1) →
      pyobject_to_map_go self ext es m = .ok (m ++ ps) := by
  intro es
  induction es with
  | nil =>
      intro ps m hf hdist hdisj
      cases hf
      simp [pyobject_to_map_go]
  | cons e rest ih =>
      intro ps m hf hdist hdisj
      obtain ⟨k, v⟩ := e
      rcases hf with _ | ⟨hrt, htail⟩
      rename_i b tl
      obtain ⟨kk, vv⟩ := b
      obtain ⟨hk1, hk2, hv1, hv2⟩ := hrt
      dsimp only at hk1 hk2 hv1 hv2
      simp only [keysDistinctB, Bool.and_eq_true, Bool.not_eq_true] at hdist
      simp only [pyobject_to_map_go]
      rw [hk1, except_bind_ok, hv1, except_bind_ok]
      have hnotin : m.any (fun p => p.1 == kk) = false := by
        rw [List.any_eq_false]
        intro q hq
        have hne := hdisj q hq (kk, vv) (List.mem_cons_self _ _)
        simpa using hne
      have hset : asMapSet m kk vv = m ++ [(kk, vv)] := by
        unfold asMapSet
        rw [hnotin]
        rfl
      rw [hset]
      have hdisj2 : ∀ q ∈ m ++ [(kk, vv)], ∀ p ∈ tl, q.1 ≠ p.1 := by
        intro q hq p hp
        rcases List.mem_append.mp hq with hq | hq
        · exact hdisj q hq p (List.mem_cons_of_mem _ hp)
        · have hq2 : q = (kk, vv) := by simpa using hq
          subst hq2
          obtain ⟨e2, he2, hrt2⟩ := forall2_mem_right htail p hp
          obtain ⟨he1, he1r, _, _⟩ := hrt2
          intro heq
          dsimp only at heq
          rw [← heq] at he1r
          have hkey := hk2.symm.trans he1r
          injection hkey with hkey
          have hdist1 : rest.any (fun p => p.1 == k) = false := by
            simpa using hdist.1
          have hany := List.any_eq_false.mp hdist1 e2 he2
          rw [← hkey] at hany
          simp at hany
      have happ : m ++ (kk, vv) :: tl = (m ++ [(kk, vv)]) ++ tl := by
        simp
      rw [happ]
      exact ih tl (m ++ [(kk, vv)]) htail hdist.2 hdisj2

/-- Read side of the dictionary roundtrip: with entrywise-roundtripping
conversions, hashable pairwise distinct original keys and an accumulated
dictionary whose keys avoid the original keys, the PyDict_SetItem loop appends
the read-back entries in order. -/
theorem map_read_go (self : Client) (ext : ExtFns) :
    ∀ (es : List (PyObj × PyObj)) (ps : List (AsVal × AsVal)) (d : List (PyObj × PyObj)),
      List.Forall₂ (RTentry self ext) es ps →
      es.all (fun p => pyHashable p.1) = true →
      keysDistinctB es = true →
      (∀ q ∈ d, ∀ e ∈ es, q.1 ≠ e.1) →
      map_to_pyobject_go self ext ps d = .ok (d ++ es) := by
  intro es
  induction es with
  | nil =>
      intro ps d hf hhash hdist hdisj
      cases hf
      simp [map_to_pyobject_go]
  | cons e rest ih =>
      intro ps d hf hhash hdist hdisj
      obtain ⟨k, v⟩ := e
      rcases hf with _ | ⟨hrt, htail⟩
      rename_i b tl
      obtain ⟨kk, vv⟩ := b
      obtain ⟨hk1, hk2, hv1, hv2⟩ := hrt
      dsimp only at hk1 hk2 hv1 hv2
      simp only [List.all_cons, Bool.and_eq_true] at hhash
      simp only [keysDistinctB, Bool.and_eq_true, Bool.not_eq_true] at hdist
      simp only [map_to_pyobject_go, val_to_pyobject] at hk2 hv2 ⊢
      rw [hk2, except_bind_ok, hv2, except_bind_ok]
      have hnotin : d.any (fun p => p.1 == k) = false := by
        rw [List.any_eq_false]
        intro q hq
        have hne := hdisj q hq (k, v) (List.mem_cons_self _ _)
        simpa using hne
      have hsetd : pyDictSetItem d k v = .ok (d ++ [(k, v)]) := by
        unfold pyDictSetItem
        rw [hhash.1, hnotin]
        rfl
      rw [hsetd, except_bind_ok]
      have hdisj2 : ∀ q ∈ d ++ [(k, v)], ∀ e ∈ rest, q.1 ≠ e.1 := by
        intro q hq e he
        rcases List.mem_append.mp hq with hq | hq
        · exact hdisj q hq e (List.mem_cons_of_mem _ he)
        · have hq2 : q = (k, v) := by simpa using hq
          subst hq2
          have hdist1 : rest.any (fun p => p.1 == k) = false := by
            simpa using hdist.1
          have hany := List.any_eq_false.mp hdist1 e he
          intro heq
          dsimp only at heq
          rw [← heq] at hany
          simp at hany
      have happ : d ++ (k, v) :: rest = (d ++ [(k, v)]) ++ rest := by
        simp
      rw [happ]
      exact ih tl (d ++ [(k, v)]) htail hhash.2 hdist.2 hdisj2

mutual
/-- Roundtrip of one representable value through pyobject_to_val and
val_to_pyobject. -/
theorem rt_val (self : Client) (ext : ExtFns) :
    ∀ x : PyObj, representable x = true →
      ∃ v, pyobject_to_val self ext x = .ok v ∧ val_to_pyobject self ext v = .ok x
  | .pyInt n, h =>
      have h2 : fitsInt64 n = true := h
      ⟨.integer n, by simp [pyobject_to_val, h2], rfl⟩
  | .pyFloat bits, _ => ⟨.double bits, rfl, rfl⟩
  | .pyStr s, h =>
      have hc : cstr s = s := cstr_of_no_nul s h
      ⟨.string s, by simp [pyobject_to_val, hc], by
        simp [val_to_pyobject, do_val_to_pyobject, hc]⟩
  | .pyBytes b, _ => ⟨.bytes .blob b, rfl, rfl⟩
  | .pyList xs, h =>
      have ⟨vs, hw, hr⟩ := rt_list self ext xs h
      ⟨.list vs, by simp [pyobject_to_val, hw], by
        simp [val_to_pyobject, do_val_to_pyobject, hr]⟩
  | .pyDict es, h =>
      have h3 : representablePairs es = true ∧
          es.all (fun p => pyHashable p.1) = true ∧ keysDistinctB es = true := by
        simpa [representable, Bool.and_eq_true, and_assoc] using h
      have ⟨ps, hf⟩ := rt_pairs self ext es h3.1
      have hw := map_write_go self ext es ps [] hf h3.2.2
        (fun q hq => absurd hq (List.not_mem_nil q))
      have hr := map_read_go self ext es ps [] hf h3.2.1 h3.2.2
        (fun q hq => absurd hq (List.not_mem_nil q))
      ⟨.map ps, by simp [pyobject_to_val, pyobject_to_map, hw], by
        simp [val_to_pyobject, do_val_to_pyobject, hr]⟩
  | .pyBool _, h => nomatch h
  | .pyUni _, h => nomatch h
  | .pyByteArray _, h => nomatch h
  | .pyTuple _, h => nomatch h
  | .pyNone, h => nomatch h
  | .pyNull, h => nomatch h
  | .pyGeo _, h => nomatch h
  | .pyWildcard, h => nomatch h
  | .pyInfinity, h => nomatch h
  | .pyCtxWrapper _ _, h => nomatch h
  | .pyOther, h => nomatch h

/-- Roundtrip of a list of representable values. -/
theorem rt_list (self : Client) (ext : ExtFns) :
    ∀ xs : List PyObj, representableList xs = true →
      ∃ vs, pyobject_to_list self ext xs = .ok vs ∧
        list_to_pyobject self ext vs = .ok xs
  | [], _ => ⟨[], rfl, rfl⟩
  | x :: xs, h =>
      have h2 : representable x = true ∧ representableList xs = true := by
        simpa [representableList, Bool.and_eq_true] using h
      have ⟨v, hw, hr⟩ := rt_val self ext x h2.1
      have ⟨vs, hws, hrs⟩ := rt_list self ext xs h2.2
      ⟨v :: vs, by simp [pyobject_to_list, hw, hws], by
        simp only [list_to_pyobject,
          show do_val_to_pyobject self ext false v = .ok x from hr, except_bind_ok, hrs]⟩

/-- Entrywise roundtrip of a list of representable dictionary entries. -/
theorem rt_pairs (self : Client) (ext : ExtFns) :
    ∀ es : List (PyObj × PyObj), representablePairs es = true →
      ∃ ps, List.Forall₂ (RTentry self ext) es ps
  | [], _ => ⟨[], List.Forall₂.nil⟩
  | (k, v) :: rest, h =>
      have h2 : representable k = true ∧ representable v = true ∧
          representablePairs rest = true := by
        simpa [representablePairs, Bool.and_eq_true, and_assoc] using h
      have ⟨k2, hkw, hkr⟩ := rt_val self ext k h2.1
      have ⟨v2, hvw, hvr⟩ := rt_val self ext v h2.2.1
      have ⟨ps, hf⟩ := rt_pairs self ext rest h2.2.2
      ⟨(k2, v2) :: ps, List.Forall₂.cons ⟨hkw, hkr, hvw, hvr⟩ hf⟩
end

/-- C1: every representable value (a signed 64-bit integer, a double, a
NUL-free byte string, raw bytes, or a list or dictionary nested from these
with hashable distinct dictionary keys) converts to the wire value model and
back to an equal Python value. -/
theorem c1_roundtrip (self : Client) (ext : ExtFns) (x : PyObj)
    (h : representable x = true) :
    ∃ v, pyobject_to_val self ext x = .ok v ∧ val_to_pyobject self ext v = .ok x :=
  rt_val self ext x h

/-- C1 witness: a concrete nested list holding an integer, a string, raw bytes
containing a NUL and a dictionary roundtrips. -/
theorem c1_witness :
    representable (.pyList [.pyInt 3, .pyStr [97], .pyBytes [5, 0, 7],
      .pyDict [(.pyInt 1, .pyFloat 42)]]) = true ∧
    (∃ v, pyobject_to_val client0 ext0 (.pyList [.pyInt 3, .pyStr [97], .pyBytes [5, 0, 7],
        .pyDict [(.pyInt 1, .pyFloat 42)]]) = .ok v ∧
      val_to_pyobject client0 ext0 v = .ok (.pyList [.pyInt 3, .pyStr [97],
        .pyBytes [5, 0, 7], .pyDict [(.pyInt 1, .pyFloat 42)]])) :=
  ⟨by decide,
   c1_roundtrip client0 ext0 (.pyList [.pyInt 3, .pyStr [97], .pyBytes [5, 0, 7],
     .pyDict [(.pyInt 1, .pyFloat 42)]]) (by decide)⟩

/-- C1 counterexample: a byte string containing an interior NUL converts
without error but truncates at the NUL, so the value read back differs from
the original: the roundtrip equality the claim states for all strings fails
for strings with embedded NUL bytes. -/
theorem c1_counterexample :
    pyobject_to_val client0 ext0 (.pyStr [97, 0, 98]) = .ok (.string [97]) ∧
    val_to_pyobject client0 ext0 (.string [97]) = .ok (.pyStr [97]) ∧
    PyObj.pyStr [97] ≠ .pyStr [97, 0, 98] :=
  ⟨by decide, by decide, by decide⟩
